import Mathlib

/-!
Verification of the Marvel Tribe device protocol client and state
reconciler (`custom_components/marvel_tribe/websocket_client.py` and
`custom_components/marvel_tribe/coordinator.py`).

The Python code is shallowly embedded: JSON values become the inductive
`JsonVal`, dictionaries become association lists whose assignment
prepends a shadowing binding (extensionally the same mapping as a Python
dict), wall-clock instants (`time.time()`) become integers, and Python
exceptions raised inside the merge handler become the `.exn` branch of
`MRes`, carrying the partially mutated state exactly as the in-place
dict mutation of the source would.  String formatting of clock values
(`datetime.now().isoformat()`, `datetime.fromtimestamp(..).isoformat()`)
is abstracted to the decimal rendering of the integer clock; no claim
inspects the text of a timestamp, only which snapshot field holds it.
JSON numbers are modelled as integers (the device protocol uses only
integral values; float/int equality subtleties of Python are out of
scope of every claim).
-/

namespace MarvelTribe

/-- JSON value, as produced by `json.loads` on an inbound text frame. -/
inductive JsonVal where
  | null
  | bool (b : Bool)
  | num (n : Int)
  | str (s : String)
  | arr (elems : List JsonVal)
  | obj (fields : List (String × JsonVal))

/-- Fields of a JSON object / a decoded frame, keyed by strings as
`json.loads` yields them. -/
abbrev ObjFields := List (String × JsonVal)

/-- A decoded inbound frame (a JSON object at top level). -/
abbrev Frame := ObjFields

/-- The device-state snapshot owned by the coordinator (`self.data`):
a string-keyed mapping.  Assignment prepends a shadowing binding. -/
abbrev Snapshot := List (String × JsonVal)

/-- Association-list lookup; the first binding for a key wins, matching
the shadowing discipline of `dictUpdate` below. -/
def alook {α : Type} : List (String × α) → String → Option α
  | [], _ => none
  | (k', v) :: t, k => if k = k' then some v else alook t k

/-- Python `d.get(key, default)` on a JSON object's fields. -/
def jget (fs : ObjFields) (k : String) (d : JsonVal) : JsonVal :=
  match alook fs k with
  | some v => v
  | none => d

/-- Python `dict.update(us)` / repeated `d[k] = v` assignments: each
binding of `us` is written in order, later ones shadowing earlier. -/
def dictUpdate (m : List (String × JsonVal)) (us : List (String × JsonVal)) :
    List (String × JsonVal) :=
  us.foldl (fun acc kv => kv :: acc) m

/-- Python truthiness of a JSON value (`if x:`). -/
def pyTruthy : JsonVal → Bool
  | .null => false
  | .bool b => b
  | .num n => decide (n ≠ 0)
  | .str s => !s.isEmpty
  | .arr l => !l.isEmpty
  | .obj l => !l.isEmpty

/-! ### Protocol codec (`websocket_client.py`, lines 31-69 and 283-303) -/

/-- The `self.command_id` table. -/
def command_id : List (String × Int) :=
  [("log", 0), ("set_user_property", 1), ("get_user_property", 2), ("recovery", 3),
   ("file", 4), ("factory", 5), ("wifi", 6), ("ble", 7), ("characteristic", 8), ("audio", 9)]

/-- The `self.property_id` table. -/
def property_id : List (String × Int) :=
  [("operate", 0), ("all", 1), ("authorization", 2), ("time", 3), ("alarm", 4), ("sntp", 5),
   ("auto_sleep", 6), ("rgb_light", 7), ("wifi", 8), ("audio", 9), ("album", 10),
   ("weather", 11), ("others", 12), ("fans", 13), ("dst", 14), ("max", 15)]

def commandIdOf (ct : String) : Option Int := alook command_id ct

def propertyIdOf (pn : String) : Option Int := alook property_id pn

/-- Python truthiness of `data` in `if command_type == "set_user_property" and data:`
where `data` may be `None`. -/
def optTruthy : Option JsonVal → Bool
  | none => false
  | some v => pyTruthy v

/-- The wire frame built by `send_property_command` (lines 283-303).
`message = {"command": command_id[ct]}; message[property_id[pn]] = ...`;
`json.dumps` renders the integer dictionary key as a decimal string, so
the decoded frame on the other side carries `toString pid` as slot key.
Returns `none` when a table lookup fails (the Python `KeyError` is
caught and no frame is sent). -/
def send_property_command_frame (ct pn : String) (data : Option JsonVal) : Option Frame :=
  match commandIdOf ct, propertyIdOf pn with
  | some cid, some pid =>
      let v : JsonVal :=
        if ct = "set_user_property" ∧ optTruthy data then
          match data with
          | some d => d
          | none => .str "0"
        else
          match data with
          | some d => d
          | none => .str "0"
      some [("command", .num cid), (toString pid, v)]
  | _, _ => none

/-! ### Inbound dispatch (`websocket_client.py`, `_handle_message`, lines 170-196) -/

/-- Observable dispatch events of `_handle_message`, in program order. -/
inductive Event where
  | toHandler (key : String) (frame : Frame)
  | protocolLog (command : JsonVal)
  | unhandledDiag (mtype : JsonVal)

/-- The `_handle_message` dispatcher over a decoded object frame.
`handlers` is the set of keys registered in `self.message_handlers`.
A frame with a `command` key goes to the reserved `marvel_tribe_data`
handler (when registered) and then to `_handle_protocol_message`
(modelled as the `protocolLog` event); otherwise the frame's `type`
value (default `"unknown"`) selects a handler, and a missing match is
logged as an unhandled-message diagnostic. -/
def handle_message (handlers : List String) (fr : Frame) : List Event :=
  match alook fr "command" with
  | some cmd =>
      (if "marvel_tribe_data" ∈ handlers then [Event.toHandler "marvel_tribe_data" fr] else [])
        ++ [Event.protocolLog cmd]
  | none =>
      match jget fr "type" (.str "unknown") with
      | .str t => if t ∈ handlers then [Event.toHandler t fr] else [Event.unhandledDiag (.str t)]
      | v => [Event.unhandledDiag v]

/-! ### Protection table (`coordinator.py`, lines 297-314) -/

/-- The `self._protected_keys` mapping: key to expiry clock value. -/
abbrev ProtKeys := List (String × Int)

/-- Python `del d[key]` on the protection table. -/
def aerase (pk : ProtKeys) (k : String) : ProtKeys :=
  pk.filter (fun p => !(p.1 == k))

/-- The `protect_state_key` method: store `now + duration` as expiry. -/
def protect_state_key (now : Int) (pk : ProtKeys) (key : String) (duration : Int) : ProtKeys :=
  (key, now + duration) :: pk

/-- The `is_key_protected` method: absent key is unprotected; an entry
with `now > expiry` is lazily evicted and reported unprotected;
otherwise the key is protected.  Returns the decision together with the
(possibly evicted) table. -/
def is_key_protected (now : Int) (pk : ProtKeys) (key : String) : Bool × ProtKeys :=
  match alook pk key with
  | none => (false, pk)
  | some expiry => if now > expiry then (false, aerase pk key) else (true, pk)

/-- The protection decision alone (first component of `is_key_protected`). -/
def key_protected_now (now : Int) (pk : ProtKeys) (key : String) : Bool :=
  (is_key_protected now pk key).1

/-! ### Merge handler (`coordinator.py`, `_handle_marvel_tribe_response`, lines 136-295) -/

/-- State threaded through the handler body: the `current_data` dict and
the protection table. -/
abbrev MState := Snapshot × ProtKeys

/-- Result of a piece of the handler body: normal completion, or a
Python exception escaping to `_handle_message`'s `except` clause with
the in-place mutations performed so far. -/
inductive MRes where
  | ok (s : MState)
  | exn (s : MState)

def mbind (r : MRes) (f : MState → MRes) : MRes :=
  match r with
  | .ok s => f s
  | .exn s => .exn s

/-- The state carried by either outcome. -/
def mstate : MRes → MState
  | .ok s => s
  | .exn s => s

/-- Abstraction of `datetime.now().isoformat()` at integer clock `now`. -/
def isoNow (now : Int) : String := toString now

/-- Abstraction of `datetime.fromtimestamp(t).isoformat()`. -/
def fromtimestampIso (t : Int) : String := toString t

/-- Arguments `datetime.fromtimestamp` accepts: numbers (Python `bool`
is numeric); anything else raises. -/
def asTimestamp : JsonVal → Option Int
  | .num n => some n
  | .bool b => some (if b then 1 else 0)
  | _ => none

/-- Device info block, slot "2" (lines 146-153). -/
def procSlot2 (msg : Frame) (s : MState) : MRes :=
  match alook msg "2" with
  | none => .ok s
  | some (.obj fs) =>
      .ok (dictUpdate s.1
        [("firmware_version", jget fs "firmware" (.str "Unknown")),
         ("hardware_version", jget fs "hardware" (.str "Unknown")),
         ("serial_number", jget fs "sn" (.str "Unknown")),
         ("wifi_mac", jget fs "wifi_mac" (.str "Unknown"))], s.2)
  | some _ => .exn s

/-- Time info block, slot "3" (lines 156-162); a non-numeric timestamp
makes `datetime.fromtimestamp` raise before any write. -/
def procSlot3 (msg : Frame) (s : MState) : MRes :=
  match alook msg "3" with
  | none => .ok s
  | some (.obj fs) =>
      match asTimestamp (jget fs "timestamp" (.num 0)) with
      | some t =>
          .ok (dictUpdate s.1
            [("device_time", .str (fromtimestampIso t)),
             ("timezone", jget fs "timezone" (.str "")),
             ("timezone_info", jget fs "timezone_city_info" (.str ""))], s.2)
      | none => .exn s
  | some _ => .exn s

/-- The cascade of protection checks a guarded slot performs on a
non-dict payload before an `AttributeError` escapes: Python runs
`is_key_protected` for each key in order and calls `.get` (which raises)
at the first unprotected key; when every key is protected no `.get` is
reached and the (empty) update succeeds.  Evictions performed by the
checks before the raise persist. -/
def protChecks (now : Int) (data : Snapshot) (pk : ProtKeys) : List String → MRes
  | [] => .ok (data, pk)
  | k :: rest =>
      if (is_key_protected now pk k).1 then
        protChecks now data (is_key_protected now pk k).2 rest
      else .exn (data, (is_key_protected now pk k).2)

/-- The shared shape of a four-key guarded group (slots "7" and "9"):
an updates dict is built key by key, each key written only when its
protection check (run in order, each seeing the previous evictions)
says unprotected, then applied in one `dict.update`. -/
def quadGuardUpdate (now : Int) (s : MState) (k1 k2 k3 k4 : String)
    (x1 x2 x3 x4 : JsonVal) : MState :=
  let r1 := is_key_protected now s.2 k1
  let r2 := is_key_protected now r1.2 k2
  let r3 := is_key_protected now r2.2 k3
  let r4 := is_key_protected now r3.2 k4
  (dictUpdate s.1
    ((if r1.1 then [] else [(k1, x1)]) ++
     (if r2.1 then [] else [(k2, x2)]) ++
     (if r3.1 then [] else [(k3, x3)]) ++
     (if r4.1 then [] else [(k4, x4)])), r4.2)

/-- The shared shape of a one-key guarded group with unconditional
companion fields (slots "12" and "6"). -/
def guardUpdate (now : Int) (s : MState) (k : String) (x : JsonVal)
    (rest : List (String × JsonVal)) : MState :=
  let r1 := is_key_protected now s.2 k
  (dictUpdate s.1 ((if r1.1 then [] else [(k, x)]) ++ rest), r1.2)

/-- Ambient light block, slot "7" (lines 165-183).  Each of the four
user-controllable fields is written only when unprotected; a non-object
payload raises at the first `.get` attempted, i.e. after the protection
checks preceding it. -/
def procSlot7 (now : Int) (msg : Frame) (s : MState) : MRes :=
  match alook msg "7" with
  | none => .ok s
  | some (.obj fs) =>
      .ok (quadGuardUpdate now s "rgb_enabled" "rgb_brightness" "rgb_speed" "rgb_effect"
        (jget fs "enable" (.bool false)) (jget fs "brightness" (.num 0))
        (jget fs "speed" (.num 0)) (jget fs "effect" (.num 0)))
  | some _ =>
      protChecks now s.1 s.2 ["rgb_enabled", "rgb_brightness", "rgb_speed", "rgb_effect"]

/-- WiFi block, slot "8" (lines 186-192). -/
def procSlot8 (msg : Frame) (s : MState) : MRes :=
  match alook msg "8" with
  | none => .ok s
  | some (.obj fs) =>
      .ok (dictUpdate s.1
        [("wifi_connected", jget fs "sta_enable" (.bool false)),
         ("ip_address", jget fs "ipv4" (.str "")),
         ("wifi_ssid", jget fs "ssid" (.str ""))], s.2)
  | some _ => .exn s

/-- Audio block, slot "9" (lines 195-213); same structure as slot "7". -/
def procSlot9 (now : Int) (msg : Frame) (s : MState) : MRes :=
  match alook msg "9" with
  | none => .ok s
  | some (.obj fs) =>
      .ok (quadGuardUpdate now s "audio_enabled" "volume_key" "volume_startup" "volume_alarm"
        (jget fs "enable" (.bool false)) (jget fs "volume_key" (.num 0))
        (jget fs "volume_startup" (.num 0)) (jget fs "volume_alarm" (.num 0)))
  | some _ =>
      protChecks now s.1 s.2 ["audio_enabled", "volume_key", "volume_startup", "volume_alarm"]

/-- LCD block, slot "12" (lines 216-238); `lcd_brightness` is the only
protected key, the remaining fields are written unconditionally. -/
def procSlot12 (now : Int) (msg : Frame) (s : MState) : MRes :=
  match alook msg "12" with
  | none => .ok s
  | some (.obj fs) =>
      .ok (guardUpdate now s "lcd_brightness" (jget fs "lcd_brightness" (.num 0))
        [("language", jget fs "language" (.str "en")),
         ("display_mode", jget fs "display_mode" (.num 0)),
         ("style", jget fs "style" (.num 0)),
         ("style_auto_switch", jget fs "style_auto_switch" (.num 0)),
         ("time_album_auto_switch", jget fs "time_album_auto_switch" (.num 0)),
         ("matrix_rain_color", jget fs "matrix_rain_color" (.str "#00ff00")),
         ("date_mode_date_duration", jget fs "date_mode_date_duration" (.num 60)),
         ("date_mode_time_duration", jget fs "date_mode_time_duration" (.num 60))])
  | some _ => .exn (s.1, (is_key_protected now s.2 "lcd_brightness").2)

/-- The seven weekday flag names checked per alarm entry (line 257). -/
def alarmDays : List String :=
  ["monday", "tuesday", "wednesday", "thursday", "friday", "saturday", "sunday"]

/-- The flattened key `f"alarm_{i}{suffix}"`. -/
def alarmKey (i : Nat) (suffix : String) : String :=
  "alarm_" ++ (toString i ++ suffix)

/-- The five flattened fields written for alarm index `i` (lines 251-258). -/
def alarmRow (i : Nat) (a : ObjFields) : List (String × JsonVal) :=
  [(alarmKey i "_enabled", jget a "enable" (.bool false)),
   (alarmKey i "_time", jget a "moment" (.str "00:00")),
   (alarmKey i "_repeat", jget a "repeat" (.bool false)),
   (alarmKey i "_rgb_flash", jget a "rgb_flash" (.bool false)),
   (alarmKey i "_days",
     .arr ((alarmDays.filter (fun d => pyTruthy (jget a d (.bool false)))).map .str))]

/-- The element sequence of Python `enumerate(x)`: lists yield their
elements, dicts their keys, strings their characters; other values are
not iterable and raise immediately. -/
def pyIter : JsonVal → Option (List JsonVal)
  | .arr l => some l
  | .obj fs => some (fs.map (fun p => JsonVal.str p.1))
  | .str s => some (s.data.map (fun c => JsonVal.str (String.mk [c])))
  | _ => none

/-- The `for i, alarm in enumerate(alarms)` loop: a non-object element
raises at `alarm.get` before any of that element's writes. -/
def alarmLoop : Nat → List JsonVal → Snapshot → Snapshot ⊕ Snapshot
  | _, [], cur => Sum.inl cur
  | i, .obj a :: rest, cur => alarmLoop (i + 1) rest (dictUpdate cur (alarmRow i a))
  | _, _ :: _, cur => Sum.inr cur

/-- Alarm block, slot "4" (lines 241-258): the system-level fields are
written first, then the per-index flattened fields. -/
def procSlot4 (msg : Frame) (s : MState) : MRes :=
  match alook msg "4" with
  | none => .ok s
  | some (.obj fs) =>
      let cur1 := dictUpdate s.1
        [("alarm_system_enabled", jget fs "enable" (.bool false)),
         ("alarms", jget fs "alarm" (.arr []))]
      match pyIter (jget fs "alarm" (.arr [])) with
      | none => .exn (cur1, s.2)
      | some elems =>
          match alarmLoop 0 elems cur1 with
          | .inl c => .ok (c, s.2)
          | .inr c => .exn (c, s.2)
  | some _ => .exn s

/-- Auto-sleep block, slot "6" (lines 261-277). -/
def procSlot6 (now : Int) (msg : Frame) (s : MState) : MRes :=
  match alook msg "6" with
  | none => .ok s
  | some (.obj fs) =>
      .ok (guardUpdate now s "auto_sleep_enabled" (jget fs "enable" (.bool false))
        [("auto_sleep_start", jget fs "start" (.str "00:00")),
         ("auto_sleep_end", jget fs "end" (.str "00:00"))])
  | some _ => .exn (s.1, (is_key_protected now s.2 "auto_sleep_enabled").2)

/-- Characteristic response, `command == 8` (lines 279-285):
`char_data = message.get("data", {})`, then three flat fields. -/
def procCharacteristic (msg : Frame) (s : MState) : MRes :=
  match alook msg "data" with
  | some (.obj fs) =>
      .ok (dictUpdate s.1
        [("screen_width", jget fs "screen_width" (.num 0)),
         ("screen_height", jget fs "screen_height" (.num 0)),
         ("style_count", jget fs "style_count" (.num 0))], s.2)
  | none =>
      .ok (dictUpdate s.1
        [("screen_width", .num 0), ("screen_height", .num 0), ("style_count", .num 0)], s.2)
  | some _ => .exn s

/-- The connectivity bookkeeping written after all groups (lines 288-292). -/
def connUpdates (now : Int) : List (String × JsonVal) :=
  [("connected", .bool true), ("status", .str "connected"), ("last_update", .str (isoNow now))]

/-- The body of `_handle_marvel_tribe_response` after `current_data` is
picked: group dispatch on the `command` value, then the connectivity
bookkeeping. -/
def runBody (now : Int) (msg : Frame) (s : MState) : MRes :=
  mbind
    (match alook msg "command" with
     | some (.num 2) =>
         mbind (procSlot2 msg s) (fun s1 =>
         mbind (procSlot3 msg s1) (fun s2 =>
         mbind (procSlot7 now msg s2) (fun s3 =>
         mbind (procSlot8 msg s3) (fun s4 =>
         mbind (procSlot9 now msg s4) (fun s5 =>
         mbind (procSlot12 now msg s5) (fun s6 =>
         mbind (procSlot4 msg s6) (fun s7 =>
         procSlot6 now msg s7)))))))
     | some (.num 8) => procCharacteristic msg s
     | _ => .ok s)
    (fun sf => .ok (dictUpdate sf.1 (connUpdates now), sf.2))

/-- Python `self.data or {}`. -/
def dataOr (st : Option Snapshot) : Snapshot :=
  match st with
  | none => []
  | some d => d

/-- Whether `self.data` is truthy (a non-empty dict), which decides
whether `current_data` aliases it. -/
def truthySnap (st : Option Snapshot) : Bool :=
  match st with
  | none => false
  | some d => !d.isEmpty

/-- The `_handle_marvel_tribe_response` handler.  On normal completion
`self.data = current_data` is executed; if the body raises (caught in
`_handle_message`), the mutations performed so far survive exactly when
`current_data` aliased a truthy `self.data`. -/
def handle_marvel_tribe_response (now : Int) (msg : Frame) (st : Option Snapshot)
    (pk : ProtKeys) : Option Snapshot × ProtKeys :=
  match runBody now msg (dataOr st, pk) with
  | .ok s => (some s.1, s.2)
  | .exn s => if truthySnap st then (some s.1, s.2) else (st, s.2)

/-- Lookup of a field in the coordinator's (possibly absent) snapshot. -/
def snapLook (st : Option Snapshot) (f : String) : Option JsonVal :=
  alook (dataOr st) f

/-! ### Refresh state machine (`coordinator.py`, `_async_update_data`, lines 49-99) -/

/-- Coordinator state relevant to a refresh: the client's `connected`
flag, `self.data`, and `self._last_request_time`. -/
structure CoordState where
  connected : Bool
  data : Option Snapshot
  lastRequestTime : Int

/-- Externally visible side effects of one refresh call. -/
inductive Action where
  | connectAttempt
  | request (propertyName : String)

/-- `self._request_cache_timeout` (line 37). -/
def requestCacheTimeout : Int := 2

/-- The body guarded by the debounce (lines 60-84): within the window,
return `self.data or {}` without issuing requests; otherwise record the
dispatch time, issue the get-all-properties and get-time requests, and
return the current data (seeded with defaults when empty). -/
def async_update_step2 (now : Int) (st : CoordState) (acts : List Action) :
    CoordState × Except String Snapshot × List Action :=
  if now - st.lastRequestTime < requestCacheTimeout then
    (st, .ok (dataOr st.data), acts)
  else if (dataOr st.data).isEmpty then
    ({ st with lastRequestTime := now },
     .ok [("connected", .bool st.connected), ("status", .str "unknown"),
          ("last_update", .str (isoNow now))],
     acts ++ [Action.request "all", Action.request "time"])
  else
    ({ st with lastRequestTime := now }, .ok (dataOr st.data),
     acts ++ [Action.request "all", Action.request "time"])

/-- The `_async_update_data` refresh entry point.  `connectOk` is the
environment's answer to `client.connect()` (which never raises: it
returns `False` on failure, leaving `connected = False`).  A failed
connect raises `UpdateFailed` — modelled as `.error` — before the
debounced body runs, leaving `self.data` untouched. -/
def async_update_data (connectOk : Bool) (now : Int) (st : CoordState) :
    CoordState × Except String Snapshot × List Action :=
  if st.connected then
    async_update_step2 now st []
  else if connectOk then
    async_update_step2 now { st with connected := true } [Action.connectAttempt]
  else
    ({ st with connected := false }, .error "Failed to connect to Marvel Tribe",
     [Action.connectAttempt])

/-! ### Field tables used by the protection claims -/

/-- The user-controllable snapshot fields with their originating slot
and JSON key inside that slot's payload. -/
def fieldTable : List (String × String × String) :=
  [("rgb_enabled", "7", "enable"),
   ("rgb_brightness", "7", "brightness"),
   ("rgb_speed", "7", "speed"),
   ("rgb_effect", "7", "effect"),
   ("audio_enabled", "9", "enable"),
   ("volume_key", "9", "volume_key"),
   ("volume_startup", "9", "volume_startup"),
   ("volume_alarm", "9", "volume_alarm"),
   ("lcd_brightness", "12", "lcd_brightness"),
   ("auto_sleep_enabled", "6", "enable")]

/-- The user-controllable field names themselves. -/
def protFields : List String :=
  ["rgb_enabled", "rgb_brightness", "rgb_speed", "rgb_effect", "audio_enabled",
   "volume_key", "volume_startup", "volume_alarm", "lcd_brightness", "auto_sleep_enabled"]

/-- The state component of either branch of the alarm loop result. -/
def sumState : Snapshot ⊕ Snapshot → Snapshot
  | .inl c => c
  | .inr c => c

/-- The five flattened-field suffixes of an alarm row. -/
def alarmSufs : List String := ["_enabled", "_time", "_repeat", "_rgb_flash", "_days"]

/-- The flag tested by the alarm-days comprehension when the entry's
day values are booleans: the day's flag read with a `false` default. -/
def dayFlagTrue (a : ObjFields) (d : String) : Bool :=
  match jget a d (.bool false) with
  | .bool b => b
  | _ => false

theorem protFields_eq_fieldTable_map : protFields = fieldTable.map (fun t => t.1) := rfl

/-! ### Basic lemmas about the map operations -/

theorem alook_cons {α : Type} (k' : String) (v : α) (t : List (String × α)) (k : String) :
    alook ((k', v) :: t) k = if k = k' then some v else alook t k := rfl

theorem aerase_cons_self (k1 : String) (v1 : Int) (t : ProtKeys) :
    aerase ((k1, v1) :: t) k1 = aerase t k1 := by
  simp [aerase, List.filter_cons]

theorem aerase_cons_ne (k1 : String) (v1 : Int) (t : ProtKeys) (k : String) (hk : k1 ≠ k) :
    aerase ((k1, v1) :: t) k = (k1, v1) :: aerase t k := by
  simp [aerase, List.filter_cons, hk]

theorem alook_aerase_ne (pk : ProtKeys) (k f : String) (h : f ≠ k) :
    alook (aerase pk k) f = alook pk f := by
  induction pk with
  | nil => rfl
  | cons p t ih =>
    obtain ⟨k1, v1⟩ := p
    by_cases hk : k1 = k
    · subst hk
      rw [aerase_cons_self, alook_cons, if_neg h, ih]
    · rw [aerase_cons_ne _ _ _ _ hk, alook_cons, alook_cons]
      by_cases hf1 : f = k1
      · simp [hf1]
      · rw [if_neg hf1, if_neg hf1, ih]

theorem alook_aerase_self (pk : ProtKeys) (k : String) :
    alook (aerase pk k) k = none := by
  induction pk with
  | nil => rfl
  | cons p t ih =>
    obtain ⟨k1, v1⟩ := p
    by_cases hk : k1 = k
    · subst hk
      rw [aerase_cons_self]
      exact ih
    · have hk' : k ≠ k1 := fun hh => hk hh.symm
      rw [aerase_cons_ne _ _ _ _ hk, alook_cons, if_neg hk']
      exact ih

theorem dictUpdate_nil (m : Snapshot) : dictUpdate m [] = m := rfl

theorem dictUpdate_cons (m : Snapshot) (kv : String × JsonVal) (us : List (String × JsonVal)) :
    dictUpdate m (kv :: us) = dictUpdate (kv :: m) us := rfl

theorem dictUpdate_append (m : Snapshot) (a b : List (String × JsonVal)) :
    dictUpdate m (a ++ b) = dictUpdate (dictUpdate m a) b := by
  simp [dictUpdate, List.foldl_append]

theorem alook_dictUpdate_of_forall_ne (m : Snapshot) (us : List (String × JsonVal))
    (f : String) (h : ∀ kv ∈ us, kv.1 ≠ f) :
    alook (dictUpdate m us) f = alook m f := by
  induction us generalizing m with
  | nil => rfl
  | cons kv t ih =>
    obtain ⟨k, v⟩ := kv
    have hk : k ≠ f := h (k, v) (List.mem_cons_self _ _)
    have hf : f ≠ k := fun hh => hk hh.symm
    rw [dictUpdate_cons, ih _ (fun kv hkv => h kv (List.mem_cons_of_mem _ hkv)),
      alook_cons, if_neg hf]

/-! ### Lemmas about `is_key_protected` -/

theorem ikp_of_none (now : Int) (pk : ProtKeys) (k : String) (h : alook pk k = none) :
    is_key_protected now pk k = (false, pk) := by
  simp [is_key_protected, h]

theorem ikp_unexpired (now : Int) (pk : ProtKeys) (k : String) (e : Int)
    (h : alook pk k = some e) (hle : ¬ now > e) :
    is_key_protected now pk k = (true, pk) := by
  simp [is_key_protected, h, hle]

theorem ikp_expired (now : Int) (pk : ProtKeys) (k : String) (e : Int)
    (h : alook pk k = some e) (hgt : now > e) :
    is_key_protected now pk k = (false, aerase pk k) := by
  simp [is_key_protected, h, hgt]

theorem ikp_snd_alook_ne (now : Int) (pk : ProtKeys) (k f : String) (h : f ≠ k) :
    alook (is_key_protected now pk k).2 f = alook pk f := by
  unfold is_key_protected
  cases heq : alook pk k with
  | none => rfl
  | some e =>
    by_cases hgt : now > e
    · simp [hgt, alook_aerase_ne _ _ _ h]
    · simp [hgt]

theorem ikp_pres (now : Int) (pk : ProtKeys) (k f : String) (e : Int)
    (hp : alook pk f = some e) (hle : ¬ now > e) :
    alook (is_key_protected now pk k).2 f = some e := by
  by_cases h : f = k
  · subst h
    rw [ikp_unexpired now pk f e hp hle]
    exact hp
  · rw [ikp_snd_alook_ne now pk k f h]
    exact hp

theorem ikp_pres_none (now : Int) (pk : ProtKeys) (k f : String)
    (hp : alook pk f = none) :
    alook (is_key_protected now pk k).2 f = none := by
  by_cases h : f = k
  · subst h
    rw [ikp_of_none now pk f hp]
    exact hp
  · rw [ikp_snd_alook_ne now pk k f h]
    exact hp

theorem ikp_fst_true (now : Int) (pk : ProtKeys) (f : String) (e : Int)
    (hp : alook pk f = some e) (hle : ¬ now > e) :
    (is_key_protected now pk f).1 = true := by
  rw [ikp_unexpired now pk f e hp hle]

theorem mstate_mbind_pres (I : MState → Prop) (r : MRes) (g : MState → MRes)
    (h1 : I (mstate r)) (h2 : ∀ s', I s' → I (mstate (g s'))) :
    I (mstate (mbind r g)) := by
  cases r with
  | ok s' => exact h2 s' h1
  | exn s' => exact h1

/-! ### Preservation of a protected field across the merge handler (claim C1) -/

theorem protFields_cases (f : String) (hf : f ∈ protFields) :
    f = "rgb_enabled" ∨ f = "rgb_brightness" ∨ f = "rgb_speed" ∨ f = "rgb_effect" ∨
    f = "audio_enabled" ∨ f = "volume_key" ∨ f = "volume_startup" ∨ f = "volume_alarm" ∨
    f = "lcd_brightness" ∨ f = "auto_sleep_enabled" := by
  simpa [protFields] using hf

theorem alarm_prefix_ne (t f : String) (hf : f ∈ protFields) : "alarm_" ++ t ≠ f := by
  obtain ⟨l⟩ := t
  rcases protFields_cases f hf with rfl|rfl|rfl|rfl|rfl|rfl|rfl|rfl|rfl|rfl <;>
    (intro h; simp [String.ext_iff] at h)

theorem guard_mem_ne {b : Bool} {ki f : String} {xi : JsonVal}
    (h : f = ki → b = true) :
    ∀ kv ∈ (if b then ([] : List (String × JsonVal)) else [(ki, xi)]), kv.1 ≠ f := by
  intro kv hkv
  cases b with
  | true => simp at hkv
  | false =>
    simp at hkv
    subst hkv
    intro hk
    exact absurd (h hk.symm) (by simp)

theorem procSlot2_pres (msg : Frame) (s : MState) (f : String) (hf : f ∈ protFields) :
    alook (mstate (procSlot2 msg s)).1 f = alook s.1 f ∧ (mstate (procSlot2 msg s)).2 = s.2 := by
  unfold procSlot2
  split
  · exact ⟨rfl, rfl⟩
  · refine ⟨?_, rfl⟩
    apply alook_dictUpdate_of_forall_ne
    intro kv hkv
    simp only [List.mem_cons, List.not_mem_nil, or_false] at hkv
    rcases hkv with rfl|rfl|rfl|rfl <;>
      (rcases protFields_cases f hf with rfl|rfl|rfl|rfl|rfl|rfl|rfl|rfl|rfl|rfl <;> simp)
  · exact ⟨rfl, rfl⟩

theorem procSlot3_pres (msg : Frame) (s : MState) (f : String) (hf : f ∈ protFields) :
    alook (mstate (procSlot3 msg s)).1 f = alook s.1 f ∧ (mstate (procSlot3 msg s)).2 = s.2 := by
  unfold procSlot3
  split
  · exact ⟨rfl, rfl⟩
  · split
    · refine ⟨?_, rfl⟩
      apply alook_dictUpdate_of_forall_ne
      intro kv hkv
      simp only [List.mem_cons, List.not_mem_nil, or_false] at hkv
      rcases hkv with rfl|rfl|rfl <;>
        (rcases protFields_cases f hf with rfl|rfl|rfl|rfl|rfl|rfl|rfl|rfl|rfl|rfl <;> simp)
    · exact ⟨rfl, rfl⟩
  · exact ⟨rfl, rfl⟩

theorem procSlot8_pres (msg : Frame) (s : MState) (f : String) (hf : f ∈ protFields) :
    alook (mstate (procSlot8 msg s)).1 f = alook s.1 f ∧ (mstate (procSlot8 msg s)).2 = s.2 := by
  unfold procSlot8
  split
  · exact ⟨rfl, rfl⟩
  · refine ⟨?_, rfl⟩
    apply alook_dictUpdate_of_forall_ne
    intro kv hkv
    simp only [List.mem_cons, List.not_mem_nil, or_false] at hkv
    rcases hkv with rfl|rfl|rfl <;>
      (rcases protFields_cases f hf with rfl|rfl|rfl|rfl|rfl|rfl|rfl|rfl|rfl|rfl <;> simp)
  · exact ⟨rfl, rfl⟩

theorem procCharacteristic_pres (msg : Frame) (s : MState) (f : String) (hf : f ∈ protFields) :
    alook (mstate (procCharacteristic msg s)).1 f = alook s.1 f ∧
    (mstate (procCharacteristic msg s)).2 = s.2 := by
  unfold procCharacteristic
  split
  · refine ⟨?_, rfl⟩
    apply alook_dictUpdate_of_forall_ne
    intro kv hkv
    simp only [List.mem_cons, List.not_mem_nil, or_false] at hkv
    rcases hkv with rfl|rfl|rfl <;>
      (rcases protFields_cases f hf with rfl|rfl|rfl|rfl|rfl|rfl|rfl|rfl|rfl|rfl <;> simp)
  · refine ⟨?_, rfl⟩
    apply alook_dictUpdate_of_forall_ne
    intro kv hkv
    simp only [List.mem_cons, List.not_mem_nil, or_false] at hkv
    rcases hkv with rfl|rfl|rfl <;>
      (rcases protFields_cases f hf with rfl|rfl|rfl|rfl|rfl|rfl|rfl|rfl|rfl|rfl <;> simp)
  · exact ⟨rfl, rfl⟩

theorem alarmLoop_pres (elems : List JsonVal) (i : Nat) (cur : Snapshot) (f : String)
    (hf : f ∈ protFields) :
    alook (sumState (alarmLoop i elems cur)) f = alook cur f := by
  induction elems generalizing i cur with
  | nil => rfl
  | cons v rest ih =>
    cases v with
    | obj a =>
      show alook (sumState (alarmLoop (i + 1) rest (dictUpdate cur (alarmRow i a)))) f = _
      rw [ih]
      apply alook_dictUpdate_of_forall_ne
      intro kv hkv
      simp only [alarmRow, List.mem_cons, List.not_mem_nil, or_false] at hkv
      rcases hkv with rfl|rfl|rfl|rfl|rfl <;> exact alarm_prefix_ne _ f hf
    | null => rfl
    | bool b => rfl
    | num n => rfl
    | str t => rfl
    | arr l => rfl

theorem procSlot4_pres (msg : Frame) (s : MState) (f : String) (hf : f ∈ protFields) :
    alook (mstate (procSlot4 msg s)).1 f = alook s.1 f ∧ (mstate (procSlot4 msg s)).2 = s.2 := by
  have hsys : ∀ fs : ObjFields,
      alook (dictUpdate s.1
        [("alarm_system_enabled", jget fs "enable" (.bool false)),
         ("alarms", jget fs "alarm" (.arr []))]) f = alook s.1 f := by
    intro fs
    apply alook_dictUpdate_of_forall_ne
    intro kv hkv
    simp only [List.mem_cons, List.not_mem_nil, or_false] at hkv
    rcases hkv with rfl|rfl <;>
      (rcases protFields_cases f hf with rfl|rfl|rfl|rfl|rfl|rfl|rfl|rfl|rfl|rfl <;> simp)
  unfold procSlot4
  split
  · exact ⟨rfl, rfl⟩
  · next fs heq =>
    split
    · exact ⟨hsys fs, rfl⟩
    · next elems hiter =>
      cases halarm : alarmLoop 0 elems (dictUpdate s.1
          [("alarm_system_enabled", jget fs "enable" (.bool false)),
           ("alarms", jget fs "alarm" (.arr []))]) with
      | inl c =>
        have := alarmLoop_pres elems 0 (dictUpdate s.1
          [("alarm_system_enabled", jget fs "enable" (.bool false)),
           ("alarms", jget fs "alarm" (.arr []))]) f hf
        rw [halarm] at this
        simp only [halarm]
        exact ⟨this.trans (hsys fs), rfl⟩
      | inr c =>
        have := alarmLoop_pres elems 0 (dictUpdate s.1
          [("alarm_system_enabled", jget fs "enable" (.bool false)),
           ("alarms", jget fs "alarm" (.arr []))]) f hf
        rw [halarm] at this
        simp only [halarm]
        exact ⟨this.trans (hsys fs), rfl⟩
  · exact ⟨rfl, rfl⟩

theorem protChecks_pres (now : Int) (data : Snapshot) (pk : ProtKeys) (keys : List String)
    (f : String) (e : Int) (hp : alook pk f = some e) (hle : ¬ now > e) :
    alook (mstate (protChecks now data pk keys)).1 f = alook data f ∧
    alook (mstate (protChecks now data pk keys)).2 f = some e := by
  induction keys generalizing pk with
  | nil => exact ⟨rfl, hp⟩
  | cons k rest ih =>
    have hpk : alook (is_key_protected now pk k).2 f = some e :=
      ikp_pres now pk k f e hp hle
    unfold protChecks
    split
    · exact ih _ hpk
    · exact ⟨rfl, hpk⟩

theorem quadGuardUpdate_pres (now : Int) (s : MState) (k1 k2 k3 k4 : String)
    (x1 x2 x3 x4 : JsonVal) (f : String) (e : Int)
    (hp : alook s.2 f = some e) (hle : ¬ now > e) :
    alook (quadGuardUpdate now s k1 k2 k3 k4 x1 x2 x3 x4).1 f = alook s.1 f ∧
    alook (quadGuardUpdate now s k1 k2 k3 k4 x1 x2 x3 x4).2 f = some e := by
  have hp1 : alook (is_key_protected now s.2 k1).2 f = some e :=
    ikp_pres now s.2 k1 f e hp hle
  have hp2 : alook (is_key_protected now (is_key_protected now s.2 k1).2 k2).2 f = some e :=
    ikp_pres now _ k2 f e hp1 hle
  have hp3 : alook (is_key_protected now (is_key_protected now
      (is_key_protected now s.2 k1).2 k2).2 k3).2 f = some e :=
    ikp_pres now _ k3 f e hp2 hle
  have hp4 : alook (is_key_protected now (is_key_protected now (is_key_protected now
      (is_key_protected now s.2 k1).2 k2).2 k3).2 k4).2 f = some e :=
    ikp_pres now _ k4 f e hp3 hle
  have hb1 : f = k1 → (is_key_protected now s.2 k1).1 = true :=
    fun h => ikp_fst_true now s.2 k1 e (h ▸ hp) hle
  have hb2 : f = k2 → (is_key_protected now (is_key_protected now s.2 k1).2 k2).1 = true :=
    fun h => ikp_fst_true now _ k2 e (h ▸ hp1) hle
  have hb3 : f = k3 → (is_key_protected now (is_key_protected now
      (is_key_protected now s.2 k1).2 k2).2 k3).1 = true :=
    fun h => ikp_fst_true now _ k3 e (h ▸ hp2) hle
  have hb4 : f = k4 → (is_key_protected now (is_key_protected now (is_key_protected now
      (is_key_protected now s.2 k1).2 k2).2 k3).2 k4).1 = true :=
    fun h => ikp_fst_true now _ k4 e (h ▸ hp3) hle
  constructor
  · simp only [quadGuardUpdate]
    apply alook_dictUpdate_of_forall_ne
    intro kv hkv
    rcases List.mem_append.mp hkv with hkv | h4
    · rcases List.mem_append.mp hkv with hkv | h3
      · rcases List.mem_append.mp hkv with h1 | h2
        · exact guard_mem_ne hb1 kv h1
        · exact guard_mem_ne hb2 kv h2
      · exact guard_mem_ne hb3 kv h3
    · exact guard_mem_ne hb4 kv h4
  · simp only [quadGuardUpdate]
    exact hp4

theorem guardUpdate_pres (now : Int) (s : MState) (k : String) (x : JsonVal)
    (rest : List (String × JsonVal)) (f : String) (e : Int)
    (hp : alook s.2 f = some e) (hle : ¬ now > e)
    (hrest : ∀ kv ∈ rest, kv.1 ≠ f) :
    alook (guardUpdate now s k x rest).1 f = alook s.1 f ∧
    alook (guardUpdate now s k x rest).2 f = some e := by
  have hp1 : alook (is_key_protected now s.2 k).2 f = some e :=
    ikp_pres now s.2 k f e hp hle
  have hb1 : f = k → (is_key_protected now s.2 k).1 = true :=
    fun h => ikp_fst_true now s.2 k e (h ▸ hp) hle
  constructor
  · simp only [guardUpdate]
    apply alook_dictUpdate_of_forall_ne
    intro kv hkv
    rcases List.mem_append.mp hkv with h1 | hr
    · exact guard_mem_ne hb1 kv h1
    · exact hrest kv hr
  · simp only [guardUpdate]
    exact hp1

theorem procSlot7_pres (now : Int) (msg : Frame) (s : MState) (f : String) (e : Int)
    (hp : alook s.2 f = some e) (hle : ¬ now > e) :
    alook (mstate (procSlot7 now msg s)).1 f = alook s.1 f ∧
    alook (mstate (procSlot7 now msg s)).2 f = some e := by
  unfold procSlot7
  split
  · exact ⟨rfl, hp⟩
  · exact quadGuardUpdate_pres now s _ _ _ _ _ _ _ _ f e hp hle
  · exact protChecks_pres now s.1 s.2 _ f e hp hle

theorem procSlot9_pres (now : Int) (msg : Frame) (s : MState) (f : String) (e : Int)
    (hp : alook s.2 f = some e) (hle : ¬ now > e) :
    alook (mstate (procSlot9 now msg s)).1 f = alook s.1 f ∧
    alook (mstate (procSlot9 now msg s)).2 f = some e := by
  unfold procSlot9
  split
  · exact ⟨rfl, hp⟩
  · exact quadGuardUpdate_pres now s _ _ _ _ _ _ _ _ f e hp hle
  · exact protChecks_pres now s.1 s.2 _ f e hp hle

theorem procSlot12_pres (now : Int) (msg : Frame) (s : MState) (f : String) (e : Int)
    (hf : f ∈ protFields) (hp : alook s.2 f = some e) (hle : ¬ now > e) :
    alook (mstate (procSlot12 now msg s)).1 f = alook s.1 f ∧
    alook (mstate (procSlot12 now msg s)).2 f = some e := by
  unfold procSlot12
  split
  · exact ⟨rfl, hp⟩
  · apply guardUpdate_pres now s _ _ _ f e hp hle
    intro kv hkv
    simp only [List.mem_cons, List.not_mem_nil, or_false] at hkv
    rcases hkv with rfl|rfl|rfl|rfl|rfl|rfl|rfl|rfl <;>
      (rcases protFields_cases f hf with rfl|rfl|rfl|rfl|rfl|rfl|rfl|rfl|rfl|rfl <;> simp)
  · exact ⟨rfl, ikp_pres now s.2 _ f e hp hle⟩

theorem procSlot6_pres (now : Int) (msg : Frame) (s : MState) (f : String) (e : Int)
    (hf : f ∈ protFields) (hp : alook s.2 f = some e) (hle : ¬ now > e) :
    alook (mstate (procSlot6 now msg s)).1 f = alook s.1 f ∧
    alook (mstate (procSlot6 now msg s)).2 f = some e := by
  unfold procSlot6
  split
  · exact ⟨rfl, hp⟩
  · apply guardUpdate_pres now s _ _ _ f e hp hle
    intro kv hkv
    simp only [List.mem_cons, List.not_mem_nil, or_false] at hkv
    rcases hkv with rfl|rfl <;>
      (rcases protFields_cases f hf with rfl|rfl|rfl|rfl|rfl|rfl|rfl|rfl|rfl|rfl <;> simp)
  · exact ⟨rfl, ikp_pres now s.2 _ f e hp hle⟩

theorem runBody_pres (now : Int) (msg : Frame) (s : MState) (f : String) (e : Int)
    (hf : f ∈ protFields) (hp : alook s.2 f = some e) (hle : ¬ now > e) :
    alook (mstate (runBody now msg s)).1 f = alook s.1 f := by
  have hmain : alook (mstate (runBody now msg s)).1 f = alook s.1 f ∧
      alook (mstate (runBody now msg s)).2 f = some e := by
    unfold runBody
    apply mstate_mbind_pres (fun t => alook t.1 f = alook s.1 f ∧ alook t.2 f = some e)
    · split
      · apply mstate_mbind_pres (fun t => alook t.1 f = alook s.1 f ∧ alook t.2 f = some e)
        · obtain ⟨a, b⟩ := procSlot2_pres msg s f hf
          exact ⟨a, by rw [b]; exact hp⟩
        · intro s1 hI1
          apply mstate_mbind_pres (fun t => alook t.1 f = alook s.1 f ∧ alook t.2 f = some e)
          · obtain ⟨a, b⟩ := procSlot3_pres msg s1 f hf
            exact ⟨a.trans hI1.1, by rw [b]; exact hI1.2⟩
          · intro s2 hI2
            apply mstate_mbind_pres (fun t => alook t.1 f = alook s.1 f ∧ alook t.2 f = some e)
            · obtain ⟨a, b⟩ := procSlot7_pres now msg s2 f e hI2.2 hle
              exact ⟨a.trans hI2.1, b⟩
            · intro s3 hI3
              apply mstate_mbind_pres
                (fun t => alook t.1 f = alook s.1 f ∧ alook t.2 f = some e)
              · obtain ⟨a, b⟩ := procSlot8_pres msg s3 f hf
                exact ⟨a.trans hI3.1, by rw [b]; exact hI3.2⟩
              · intro s4 hI4
                apply mstate_mbind_pres
                  (fun t => alook t.1 f = alook s.1 f ∧ alook t.2 f = some e)
                · obtain ⟨a, b⟩ := procSlot9_pres now msg s4 f e hI4.2 hle
                  exact ⟨a.trans hI4.1, b⟩
                · intro s5 hI5
                  apply mstate_mbind_pres
                    (fun t => alook t.1 f = alook s.1 f ∧ alook t.2 f = some e)
                  · obtain ⟨a, b⟩ := procSlot12_pres now msg s5 f e hf hI5.2 hle
                    exact ⟨a.trans hI5.1, b⟩
                  · intro s6 hI6
                    apply mstate_mbind_pres
                      (fun t => alook t.1 f = alook s.1 f ∧ alook t.2 f = some e)
                    · obtain ⟨a, b⟩ := procSlot4_pres msg s6 f hf
                      exact ⟨a.trans hI6.1, by rw [b]; exact hI6.2⟩
                    · intro s7 hI7
                      obtain ⟨a, b⟩ := procSlot6_pres now msg s7 f e hf hI7.2 hle
                      exact ⟨a.trans hI7.1, b⟩
      · obtain ⟨a, b⟩ := procCharacteristic_pres msg s f hf
        exact ⟨a, by rw [b]; exact hp⟩
      · exact ⟨rfl, hp⟩
    · intro t hI
      constructor
      · show alook (dictUpdate t.1 (connUpdates now)) f = alook s.1 f
        rw [alook_dictUpdate_of_forall_ne]
        · exact hI.1
        · intro kv hkv
          simp only [connUpdates, List.mem_cons, List.not_mem_nil, or_false] at hkv
          rcases hkv with rfl|rfl|rfl <;>
            (rcases protFields_cases f hf with rfl|rfl|rfl|rfl|rfl|rfl|rfl|rfl|rfl|rfl <;> simp)
      · exact hI.2
  exact hmain.1

theorem merge_pres (now : Int) (msg : Frame) (st : Option Snapshot) (pk : ProtKeys)
    (f : String) (e : Int) (hf : f ∈ protFields) (hp : alook pk f = some e)
    (hlt : now < e) :
    snapLook (handle_marvel_tribe_response now msg st pk).1 f = snapLook st f := by
  have hle : ¬ now > e := by omega
  have h := runBody_pres now msg (dataOr st, pk) f e hf hp hle
  cases hr : runBody now msg (dataOr st, pk) with
  | ok s' =>
    rw [hr] at h
    simp only [handle_marvel_tribe_response, hr]
    exact h
  | exn s' =>
    rw [hr] at h
    simp only [handle_marvel_tribe_response, hr]
    split
    · exact h
    · rfl

/-! ### Computation lemmas for absent slots -/

theorem procSlot2_none (msg : Frame) (s : MState) (h : alook msg "2" = none) :
    procSlot2 msg s = .ok s := by
  simp [procSlot2, h]

theorem procSlot3_none (msg : Frame) (s : MState) (h : alook msg "3" = none) :
    procSlot3 msg s = .ok s := by
  simp [procSlot3, h]

theorem procSlot7_none (now : Int) (msg : Frame) (s : MState) (h : alook msg "7" = none) :
    procSlot7 now msg s = .ok s := by
  simp [procSlot7, h]

theorem procSlot8_none (msg : Frame) (s : MState) (h : alook msg "8" = none) :
    procSlot8 msg s = .ok s := by
  simp [procSlot8, h]

theorem procSlot9_none (now : Int) (msg : Frame) (s : MState) (h : alook msg "9" = none) :
    procSlot9 now msg s = .ok s := by
  simp [procSlot9, h]

theorem procSlot12_none (now : Int) (msg : Frame) (s : MState) (h : alook msg "12" = none) :
    procSlot12 now msg s = .ok s := by
  simp [procSlot12, h]

theorem procSlot4_none (msg : Frame) (s : MState) (h : alook msg "4" = none) :
    procSlot4 msg s = .ok s := by
  simp [procSlot4, h]

theorem procSlot6_none (now : Int) (msg : Frame) (s : MState) (h : alook msg "6" = none) :
    procSlot6 now msg s = .ok s := by
  simp [procSlot6, h]

/-! ### Lookup computation lemmas for the guarded groups -/

theorem kpn_def (now : Int) (pk : ProtKeys) (k : String) :
    (is_key_protected now pk k).1 = key_protected_now now pk k := rfl

theorem ikp_fst_eq_of_alook_eq (now : Int) (pk pk' : ProtKeys) (k : String)
    (h : alook pk k = alook pk' k) :
    (is_key_protected now pk k).1 = (is_key_protected now pk' k).1 := by
  unfold is_key_protected
  rw [h]
  cases alook pk' k with
  | none => rfl
  | some e => by_cases hg : now > e <;> simp [hg]

theorem kpn_false_of_expired (now : Int) (pk : ProtKeys) (k : String) (e : Int)
    (hpk : alook pk k = some e) (hgt : now > e) :
    key_protected_now now pk k = false := by
  unfold key_protected_now
  rw [ikp_expired now pk k e hpk hgt]

theorem guard_mem_ne2 {b : Bool} {k f : String} {x : JsonVal} (h : k ≠ f) :
    ∀ kv ∈ (if b then ([] : List (String × JsonVal)) else [(k, x)]), kv.1 ≠ f := by
  intro kv hkv
  cases b with
  | true => simp at hkv
  | false =>
    simp at hkv
    subst hkv
    exact h

theorem alook_dictUpdate_append_right (m : Snapshot) (a b : List (String × JsonVal))
    (f : String) (hb : ∀ kv ∈ b, kv.1 ≠ f) :
    alook (dictUpdate m (a ++ b)) f = alook (dictUpdate m a) f := by
  rw [dictUpdate_append, alook_dictUpdate_of_forall_ne _ b f hb]

theorem alook_dictUpdate_singleton_self (m : Snapshot) (k : String) (x : JsonVal) :
    alook (dictUpdate m [(k, x)]) k = some x := by
  show alook ((k, x) :: m) k = some x
  rw [alook_cons, if_pos rfl]

theorem alook_dictUpdate_append_singleton (m : Snapshot) (a : List (String × JsonVal))
    (k : String) (x : JsonVal) :
    alook (dictUpdate m (a ++ [(k, x)])) k = some x := by
  rw [dictUpdate_append]
  exact alook_dictUpdate_singleton_self _ k x

theorem quad_lookup_1 (now : Int) (s : MState) (k1 k2 k3 k4 : String)
    (x1 x2 x3 x4 : JsonVal) (h2 : k1 ≠ k2) (h3 : k1 ≠ k3) (h4 : k1 ≠ k4) :
    alook (quadGuardUpdate now s k1 k2 k3 k4 x1 x2 x3 x4).1 k1 =
      if key_protected_now now s.2 k1 then alook s.1 k1 else some x1 := by
  simp only [quadGuardUpdate]
  rw [kpn_def]
  by_cases hb : key_protected_now now s.2 k1 = true
  · rw [if_pos hb, if_pos hb,
      alook_dictUpdate_append_right _ _ _ _ (guard_mem_ne2 (Ne.symm h4)),
      alook_dictUpdate_append_right _ _ _ _ (guard_mem_ne2 (Ne.symm h3)),
      alook_dictUpdate_append_right _ _ _ _ (guard_mem_ne2 (Ne.symm h2))]
    rfl
  · rw [if_neg hb, if_neg hb,
      alook_dictUpdate_append_right _ _ _ _ (guard_mem_ne2 (Ne.symm h4)),
      alook_dictUpdate_append_right _ _ _ _ (guard_mem_ne2 (Ne.symm h3)),
      alook_dictUpdate_append_right _ _ _ _ (guard_mem_ne2 (Ne.symm h2))]
    exact alook_dictUpdate_singleton_self _ _ _

theorem quad_lookup_2 (now : Int) (s : MState) (k1 k2 k3 k4 : String)
    (x1 x2 x3 x4 : JsonVal) (h1 : k2 ≠ k1) (h3 : k2 ≠ k3) (h4 : k2 ≠ k4) :
    alook (quadGuardUpdate now s k1 k2 k3 k4 x1 x2 x3 x4).1 k2 =
      if key_protected_now now s.2 k2 then alook s.1 k2 else some x2 := by
  have hch : alook (is_key_protected now s.2 k1).2 k2 = alook s.2 k2 :=
    ikp_snd_alook_ne now s.2 k1 k2 h1
  have hg : (is_key_protected now (is_key_protected now s.2 k1).2 k2).1
      = key_protected_now now s.2 k2 :=
    (ikp_fst_eq_of_alook_eq now _ _ k2 hch).trans (kpn_def now s.2 k2)
  simp only [quadGuardUpdate]
  rw [hg]
  by_cases hb : key_protected_now now s.2 k2 = true
  · rw [if_pos hb, if_pos hb,
      alook_dictUpdate_append_right _ _ _ _ (guard_mem_ne2 (Ne.symm h4)),
      alook_dictUpdate_append_right _ _ _ _ (guard_mem_ne2 (Ne.symm h3)),
      List.append_nil,
      alook_dictUpdate_of_forall_ne _ _ _ (guard_mem_ne2 (Ne.symm h1))]
  · rw [if_neg hb, if_neg hb,
      alook_dictUpdate_append_right _ _ _ _ (guard_mem_ne2 (Ne.symm h4)),
      alook_dictUpdate_append_right _ _ _ _ (guard_mem_ne2 (Ne.symm h3))]
    exact alook_dictUpdate_append_singleton _ _ _ _

theorem quad_lookup_3 (now : Int) (s : MState) (k1 k2 k3 k4 : String)
    (x1 x2 x3 x4 : JsonVal) (h1 : k3 ≠ k1) (h2 : k3 ≠ k2) (h4 : k3 ≠ k4) :
    alook (quadGuardUpdate now s k1 k2 k3 k4 x1 x2 x3 x4).1 k3 =
      if key_protected_now now s.2 k3 then alook s.1 k3 else some x3 := by
  have hch : alook (is_key_protected now (is_key_protected now s.2 k1).2 k2).2 k3
      = alook s.2 k3 := by
    rw [ikp_snd_alook_ne _ _ _ _ h2, ikp_snd_alook_ne _ _ _ _ h1]
  have hg : (is_key_protected now (is_key_protected now
      (is_key_protected now s.2 k1).2 k2).2 k3).1 = key_protected_now now s.2 k3 :=
    (ikp_fst_eq_of_alook_eq now _ _ k3 hch).trans (kpn_def now s.2 k3)
  simp only [quadGuardUpdate]
  rw [hg]
  by_cases hb : key_protected_now now s.2 k3 = true
  · rw [if_pos hb, if_pos hb,
      alook_dictUpdate_append_right _ _ _ _ (guard_mem_ne2 (Ne.symm h4)),
      List.append_nil,
      alook_dictUpdate_append_right _ _ _ _ (guard_mem_ne2 (Ne.symm h2)),
      alook_dictUpdate_of_forall_ne _ _ _ (guard_mem_ne2 (Ne.symm h1))]
  · rw [if_neg hb, if_neg hb,
      alook_dictUpdate_append_right _ _ _ _ (guard_mem_ne2 (Ne.symm h4))]
    exact alook_dictUpdate_append_singleton _ _ _ _

theorem quad_lookup_4 (now : Int) (s : MState) (k1 k2 k3 k4 : String)
    (x1 x2 x3 x4 : JsonVal) (h1 : k4 ≠ k1) (h2 : k4 ≠ k2) (h3 : k4 ≠ k3) :
    alook (quadGuardUpdate now s k1 k2 k3 k4 x1 x2 x3 x4).1 k4 =
      if key_protected_now now s.2 k4 then alook s.1 k4 else some x4 := by
  have hch : alook (is_key_protected now (is_key_protected now
      (is_key_protected now s.2 k1).2 k2).2 k3).2 k4 = alook s.2 k4 := by
    rw [ikp_snd_alook_ne _ _ _ _ h3, ikp_snd_alook_ne _ _ _ _ h2,
      ikp_snd_alook_ne _ _ _ _ h1]
  have hg : (is_key_protected now (is_key_protected now (is_key_protected now
      (is_key_protected now s.2 k1).2 k2).2 k3).2 k4).1 = key_protected_now now s.2 k4 :=
    (ikp_fst_eq_of_alook_eq now _ _ k4 hch).trans (kpn_def now s.2 k4)
  simp only [quadGuardUpdate]
  rw [hg]
  by_cases hb : key_protected_now now s.2 k4 = true
  · rw [if_pos hb, if_pos hb, List.append_nil,
      alook_dictUpdate_append_right _ _ _ _ (guard_mem_ne2 (Ne.symm h3)),
      alook_dictUpdate_append_right _ _ _ _ (guard_mem_ne2 (Ne.symm h2)),
      alook_dictUpdate_of_forall_ne _ _ _ (guard_mem_ne2 (Ne.symm h1))]
  · rw [if_neg hb, if_neg hb]
    exact alook_dictUpdate_append_singleton _ _ _ _

theorem quad_pk_evict_1 (now : Int) (s : MState) (k1 k2 k3 k4 : String)
    (x1 x2 x3 x4 : JsonVal) (e : Int)
    (hpk : alook s.2 k1 = some e) (hgt : now > e) :
    alook (quadGuardUpdate now s k1 k2 k3 k4 x1 x2 x3 x4).2 k1 = none := by
  simp only [quadGuardUpdate]
  have h1 : alook (is_key_protected now s.2 k1).2 k1 = none := by
    rw [ikp_expired now s.2 k1 e hpk hgt]
    exact alook_aerase_self _ _
  exact ikp_pres_none now _ k4 k1 (ikp_pres_none now _ k3 k1 (ikp_pres_none now _ k2 k1 h1))

theorem quad_pk_evict_2 (now : Int) (s : MState) (k1 k2 k3 k4 : String)
    (x1 x2 x3 x4 : JsonVal) (e : Int) (h1 : k2 ≠ k1)
    (hpk : alook s.2 k2 = some e) (hgt : now > e) :
    alook (quadGuardUpdate now s k1 k2 k3 k4 x1 x2 x3 x4).2 k2 = none := by
  simp only [quadGuardUpdate]
  have hch : alook (is_key_protected now s.2 k1).2 k2 = some e := by
    rw [ikp_snd_alook_ne _ _ _ _ h1]
    exact hpk
  have h2 : alook (is_key_protected now (is_key_protected now s.2 k1).2 k2).2 k2 = none := by
    rw [ikp_expired now _ k2 e hch hgt]
    exact alook_aerase_self _ _
  exact ikp_pres_none now _ k4 k2 (ikp_pres_none now _ k3 k2 h2)

theorem quad_pk_evict_3 (now : Int) (s : MState) (k1 k2 k3 k4 : String)
    (x1 x2 x3 x4 : JsonVal) (e : Int) (h1 : k3 ≠ k1) (h2 : k3 ≠ k2)
    (hpk : alook s.2 k3 = some e) (hgt : now > e) :
    alook (quadGuardUpdate now s k1 k2 k3 k4 x1 x2 x3 x4).2 k3 = none := by
  simp only [quadGuardUpdate]
  have hch : alook (is_key_protected now (is_key_protected now s.2 k1).2 k2).2 k3 = some e := by
    rw [ikp_snd_alook_ne _ _ _ _ h2, ikp_snd_alook_ne _ _ _ _ h1]
    exact hpk
  have h3 : alook (is_key_protected now (is_key_protected now
      (is_key_protected now s.2 k1).2 k2).2 k3).2 k3 = none := by
    rw [ikp_expired now _ k3 e hch hgt]
    exact alook_aerase_self _ _
  exact ikp_pres_none now _ k4 k3 h3

theorem quad_pk_evict_4 (now : Int) (s : MState) (k1 k2 k3 k4 : String)
    (x1 x2 x3 x4 : JsonVal) (e : Int) (h1 : k4 ≠ k1) (h2 : k4 ≠ k2) (h3 : k4 ≠ k3)
    (hpk : alook s.2 k4 = some e) (hgt : now > e) :
    alook (quadGuardUpdate now s k1 k2 k3 k4 x1 x2 x3 x4).2 k4 = none := by
  simp only [quadGuardUpdate]
  have hch : alook (is_key_protected now (is_key_protected now
      (is_key_protected now s.2 k1).2 k2).2 k3).2 k4 = some e := by
    rw [ikp_snd_alook_ne _ _ _ _ h3, ikp_snd_alook_ne _ _ _ _ h2,
      ikp_snd_alook_ne _ _ _ _ h1]
    exact hpk
  rw [ikp_expired now _ k4 e hch hgt]
  exact alook_aerase_self _ _

theorem guard_lookup (now : Int) (s : MState) (k : String) (x : JsonVal)
    (rest : List (String × JsonVal)) (hrest : ∀ kv ∈ rest, kv.1 ≠ k) :
    alook (guardUpdate now s k x rest).1 k =
      if key_protected_now now s.2 k then alook s.1 k else some x := by
  simp only [guardUpdate]
  rw [kpn_def]
  by_cases hb : key_protected_now now s.2 k = true
  · rw [if_pos hb, if_pos hb,
      alook_dictUpdate_append_right _ _ _ _ hrest]
    rfl
  · rw [if_neg hb, if_neg hb,
      alook_dictUpdate_append_right _ _ _ _ hrest]
    exact alook_dictUpdate_singleton_self _ _ _

theorem guard_pk_evict (now : Int) (s : MState) (k : String) (x : JsonVal)
    (rest : List (String × JsonVal)) (e : Int)
    (hpk : alook s.2 k = some e) (hgt : now > e) :
    alook (guardUpdate now s k x rest).2 k = none := by
  simp only [guardUpdate]
  rw [ikp_expired now s.2 k e hpk hgt]
  exact alook_aerase_self _ _

theorem dataOr_some (d : Snapshot) : dataOr (some d) = d := rfl

theorem alook_dictUpdate_conn (m : Snapshot) (now : Int) (f : String)
    (h1 : f ≠ "connected") (h2 : f ≠ "status") (h3 : f ≠ "last_update") :
    alook (dictUpdate m (connUpdates now)) f = alook m f := by
  apply alook_dictUpdate_of_forall_ne
  intro kv hkv
  simp only [connUpdates, List.mem_cons, List.not_mem_nil, or_false] at hkv
  rcases hkv with rfl|rfl|rfl
  · exact h1.symm
  · exact h2.symm
  · exact h3.symm

/-! ### Pipeline lemmas: single-slot frames through the whole handler -/

theorem handle_slot7_obj (now : Int) (payload : ObjFields) (st : Option Snapshot)
    (pk : ProtKeys) :
    handle_marvel_tribe_response now [("command", .num 2), ("7", .obj payload)] st pk =
      (some (dictUpdate (quadGuardUpdate now (dataOr st, pk) "rgb_enabled" "rgb_brightness"
          "rgb_speed" "rgb_effect" (jget payload "enable" (.bool false))
          (jget payload "brightness" (.num 0)) (jget payload "speed" (.num 0))
          (jget payload "effect" (.num 0))).1 (connUpdates now)),
       (quadGuardUpdate now (dataOr st, pk) "rgb_enabled" "rgb_brightness"
          "rgb_speed" "rgb_effect" (jget payload "enable" (.bool false))
          (jget payload "brightness" (.num 0)) (jget payload "speed" (.num 0))
          (jget payload "effect" (.num 0))).2) := by
  have hc : alook [("command", JsonVal.num 2), ("7", JsonVal.obj payload)] "command"
      = some (.num 2) := rfl
  have h7 : alook [("command", JsonVal.num 2), ("7", JsonVal.obj payload)] "7"
      = some (.obj payload) := rfl
  have h2 : alook [("command", JsonVal.num 2), ("7", JsonVal.obj payload)] "2" = none := rfl
  have h3 : alook [("command", JsonVal.num 2), ("7", JsonVal.obj payload)] "3" = none := rfl
  have h8 : alook [("command", JsonVal.num 2), ("7", JsonVal.obj payload)] "8" = none := rfl
  have h9 : alook [("command", JsonVal.num 2), ("7", JsonVal.obj payload)] "9" = none := rfl
  have h12 : alook [("command", JsonVal.num 2), ("7", JsonVal.obj payload)] "12" = none := rfl
  have h4 : alook [("command", JsonVal.num 2), ("7", JsonVal.obj payload)] "4" = none := rfl
  have h6 : alook [("command", JsonVal.num 2), ("7", JsonVal.obj payload)] "6" = none := rfl
  simp only [handle_marvel_tribe_response, runBody, hc, procSlot2_none _ _ h2,
    procSlot3_none _ _ h3, procSlot7, h7, procSlot8_none _ _ h8,
    procSlot9_none now _ _ h9, procSlot12_none now _ _ h12, procSlot4_none _ _ h4,
    procSlot6_none now _ _ h6, mbind]

theorem handle_slot9_obj (now : Int) (payload : ObjFields) (st : Option Snapshot)
    (pk : ProtKeys) :
    handle_marvel_tribe_response now [("command", .num 2), ("9", .obj payload)] st pk =
      (some (dictUpdate (quadGuardUpdate now (dataOr st, pk) "audio_enabled" "volume_key"
          "volume_startup" "volume_alarm" (jget payload "enable" (.bool false))
          (jget payload "volume_key" (.num 0)) (jget payload "volume_startup" (.num 0))
          (jget payload "volume_alarm" (.num 0))).1 (connUpdates now)),
       (quadGuardUpdate now (dataOr st, pk) "audio_enabled" "volume_key"
          "volume_startup" "volume_alarm" (jget payload "enable" (.bool false))
          (jget payload "volume_key" (.num 0)) (jget payload "volume_startup" (.num 0))
          (jget payload "volume_alarm" (.num 0))).2) := by
  have hc : alook [("command", JsonVal.num 2), ("9", JsonVal.obj payload)] "command"
      = some (.num 2) := rfl
  have h9 : alook [("command", JsonVal.num 2), ("9", JsonVal.obj payload)] "9"
      = some (.obj payload) := rfl
  have h2 : alook [("command", JsonVal.num 2), ("9", JsonVal.obj payload)] "2" = none := rfl
  have h3 : alook [("command", JsonVal.num 2), ("9", JsonVal.obj payload)] "3" = none := rfl
  have h7 : alook [("command", JsonVal.num 2), ("9", JsonVal.obj payload)] "7" = none := rfl
  have h8 : alook [("command", JsonVal.num 2), ("9", JsonVal.obj payload)] "8" = none := rfl
  have h12 : alook [("command", JsonVal.num 2), ("9", JsonVal.obj payload)] "12" = none := rfl
  have h4 : alook [("command", JsonVal.num 2), ("9", JsonVal.obj payload)] "4" = none := rfl
  have h6 : alook [("command", JsonVal.num 2), ("9", JsonVal.obj payload)] "6" = none := rfl
  simp only [handle_marvel_tribe_response, runBody, hc, procSlot2_none _ _ h2,
    procSlot3_none _ _ h3, procSlot7_none now _ _ h7, procSlot8_none _ _ h8,
    procSlot9, h9, procSlot12_none now _ _ h12, procSlot4_none _ _ h4,
    procSlot6_none now _ _ h6, mbind]

theorem handle_slot12_obj (now : Int) (payload : ObjFields) (st : Option Snapshot)
    (pk : ProtKeys) :
    handle_marvel_tribe_response now [("command", .num 2), ("12", .obj payload)] st pk =
      (some (dictUpdate (guardUpdate now (dataOr st, pk) "lcd_brightness"
          (jget payload "lcd_brightness" (.num 0))
          [("language", jget payload "language" (.str "en")),
           ("display_mode", jget payload "display_mode" (.num 0)),
           ("style", jget payload "style" (.num 0)),
           ("style_auto_switch", jget payload "style_auto_switch" (.num 0)),
           ("time_album_auto_switch", jget payload "time_album_auto_switch" (.num 0)),
           ("matrix_rain_color", jget payload "matrix_rain_color" (.str "#00ff00")),
           ("date_mode_date_duration", jget payload "date_mode_date_duration" (.num 60)),
           ("date_mode_time_duration", jget payload "date_mode_time_duration" (.num 60))]).1
          (connUpdates now)),
       (guardUpdate now (dataOr st, pk) "lcd_brightness"
          (jget payload "lcd_brightness" (.num 0))
          [("language", jget payload "language" (.str "en")),
           ("display_mode", jget payload "display_mode" (.num 0)),
           ("style", jget payload "style" (.num 0)),
           ("style_auto_switch", jget payload "style_auto_switch" (.num 0)),
           ("time_album_auto_switch", jget payload "time_album_auto_switch" (.num 0)),
           ("matrix_rain_color", jget payload "matrix_rain_color" (.str "#00ff00")),
           ("date_mode_date_duration", jget payload "date_mode_date_duration" (.num 60)),
           ("date_mode_time_duration", jget payload "date_mode_time_duration" (.num 60))]).2) := by
  have hc : alook [("command", JsonVal.num 2), ("12", JsonVal.obj payload)] "command"
      = some (.num 2) := rfl
  have h12 : alook [("command", JsonVal.num 2), ("12", JsonVal.obj payload)] "12"
      = some (.obj payload) := rfl
  have h2 : alook [("command", JsonVal.num 2), ("12", JsonVal.obj payload)] "2" = none := rfl
  have h3 : alook [("command", JsonVal.num 2), ("12", JsonVal.obj payload)] "3" = none := rfl
  have h7 : alook [("command", JsonVal.num 2), ("12", JsonVal.obj payload)] "7" = none := rfl
  have h8 : alook [("command", JsonVal.num 2), ("12", JsonVal.obj payload)] "8" = none := rfl
  have h9 : alook [("command", JsonVal.num 2), ("12", JsonVal.obj payload)] "9" = none := rfl
  have h4 : alook [("command", JsonVal.num 2), ("12", JsonVal.obj payload)] "4" = none := rfl
  have h6 : alook [("command", JsonVal.num 2), ("12", JsonVal.obj payload)] "6" = none := rfl
  simp only [handle_marvel_tribe_response, runBody, hc, procSlot2_none _ _ h2,
    procSlot3_none _ _ h3, procSlot7_none now _ _ h7, procSlot8_none _ _ h8,
    procSlot9_none now _ _ h9, procSlot12, h12, procSlot4_none _ _ h4,
    procSlot6_none now _ _ h6, mbind]

theorem handle_slot6_obj (now : Int) (payload : ObjFields) (st : Option Snapshot)
    (pk : ProtKeys) :
    handle_marvel_tribe_response now [("command", .num 2), ("6", .obj payload)] st pk =
      (some (dictUpdate (guardUpdate now (dataOr st, pk) "auto_sleep_enabled"
          (jget payload "enable" (.bool false))
          [("auto_sleep_start", jget payload "start" (.str "00:00")),
           ("auto_sleep_end", jget payload "end" (.str "00:00"))]).1 (connUpdates now)),
       (guardUpdate now (dataOr st, pk) "auto_sleep_enabled"
          (jget payload "enable" (.bool false))
          [("auto_sleep_start", jget payload "start" (.str "00:00")),
           ("auto_sleep_end", jget payload "end" (.str "00:00"))]).2) := by
  have hc : alook [("command", JsonVal.num 2), ("6", JsonVal.obj payload)] "command"
      = some (.num 2) := rfl
  have h6 : alook [("command", JsonVal.num 2), ("6", JsonVal.obj payload)] "6"
      = some (.obj payload) := rfl
  have h2 : alook [("command", JsonVal.num 2), ("6", JsonVal.obj payload)] "2" = none := rfl
  have h3 : alook [("command", JsonVal.num 2), ("6", JsonVal.obj payload)] "3" = none := rfl
  have h7 : alook [("command", JsonVal.num 2), ("6", JsonVal.obj payload)] "7" = none := rfl
  have h8 : alook [("command", JsonVal.num 2), ("6", JsonVal.obj payload)] "8" = none := rfl
  have h9 : alook [("command", JsonVal.num 2), ("6", JsonVal.obj payload)] "9" = none := rfl
  have h12 : alook [("command", JsonVal.num 2), ("6", JsonVal.obj payload)] "12" = none := rfl
  have h4 : alook [("command", JsonVal.num 2), ("6", JsonVal.obj payload)] "4" = none := rfl
  simp only [handle_marvel_tribe_response, runBody, hc, procSlot2_none _ _ h2,
    procSlot3_none _ _ h3, procSlot7_none now _ _ h7, procSlot8_none _ _ h8,
    procSlot9_none now _ _ h9, procSlot12_none now _ _ h12, procSlot4_none _ _ h4,
    procSlot6, h6, mbind]

theorem handle_slot8_obj (now : Int) (payload : ObjFields) (st : Option Snapshot)
    (pk : ProtKeys) :
    handle_marvel_tribe_response now [("command", .num 2), ("8", .obj payload)] st pk =
      (some (dictUpdate (dictUpdate (dataOr st)
          [("wifi_connected", jget payload "sta_enable" (.bool false)),
           ("ip_address", jget payload "ipv4" (.str "")),
           ("wifi_ssid", jget payload "ssid" (.str ""))]) (connUpdates now)), pk) := by
  have hc : alook [("command", JsonVal.num 2), ("8", JsonVal.obj payload)] "command"
      = some (.num 2) := rfl
  have h8 : alook [("command", JsonVal.num 2), ("8", JsonVal.obj payload)] "8"
      = some (.obj payload) := rfl
  have h2 : alook [("command", JsonVal.num 2), ("8", JsonVal.obj payload)] "2" = none := rfl
  have h3 : alook [("command", JsonVal.num 2), ("8", JsonVal.obj payload)] "3" = none := rfl
  have h7 : alook [("command", JsonVal.num 2), ("8", JsonVal.obj payload)] "7" = none := rfl
  have h9 : alook [("command", JsonVal.num 2), ("8", JsonVal.obj payload)] "9" = none := rfl
  have h12 : alook [("command", JsonVal.num 2), ("8", JsonVal.obj payload)] "12" = none := rfl
  have h4 : alook [("command", JsonVal.num 2), ("8", JsonVal.obj payload)] "4" = none := rfl
  have h6 : alook [("command", JsonVal.num 2), ("8", JsonVal.obj payload)] "6" = none := rfl
  simp only [handle_marvel_tribe_response, runBody, hc, procSlot2_none _ _ h2,
    procSlot3_none _ _ h3, procSlot7_none now _ _ h7, procSlot8, h8,
    procSlot9_none now _ _ h9, procSlot12_none now _ _ h12, procSlot4_none _ _ h4,
    procSlot6_none now _ _ h6, mbind]

/-! ### Claim theorems -/

/-- Claim C1: for every merge sequence, a user-controllable field whose
Protection Table entry expires strictly later than the merge clock is
left unchanged in the snapshot by processing any device-originated frame
through the merge handler; and once the entry has expired (clock past
the expiry), the next merge of that field's group applies the incoming
value normally and the expired entry is evicted on lookup. -/
theorem c1_protection_window :
    (∀ (f : String) (now : Int) (msg : Frame) (st : Option Snapshot) (pk : ProtKeys)
       (e : Int), f ∈ protFields → alook pk f = some e → now < e →
       snapLook (handle_marvel_tribe_response now msg st pk).1 f = snapLook st f) ∧
    (∀ fspec, fspec ∈ fieldTable →
     ∀ (now : Int) (st : Option Snapshot) (pk : ProtKeys) (e : Int) (payload : ObjFields)
       (v : JsonVal),
       alook pk fspec.1 = some e → e < now →
       alook payload fspec.2.2 = some v →
       snapLook (handle_marvel_tribe_response now
         [("command", .num 2), (fspec.2.1, .obj payload)] st pk).1 fspec.1 = some v ∧
       alook (handle_marvel_tribe_response now
         [("command", .num 2), (fspec.2.1, .obj payload)] st pk).2 fspec.1 = none) := by
  constructor
  · intro f now msg st pk e hf hp hlt
    exact merge_pres now msg st pk f e hf hp hlt
  · intro fspec hmem now st pk e payload v hpk hgt hv
    have hjv : ∀ d : JsonVal, jget payload fspec.2.2 d = v := by
      intro d
      simp [jget, hv]
    simp only [fieldTable, List.mem_cons, List.not_mem_nil, or_false] at hmem
    rcases hmem with rfl|rfl|rfl|rfl|rfl|rfl|rfl|rfl|rfl|rfl
    · rw [handle_slot7_obj]
      constructor
      · simp only [snapLook, dataOr_some]
        rw [alook_dictUpdate_conn _ now _ (by decide) (by decide) (by decide),
          quad_lookup_1 now (dataOr st, pk) _ _ _ _ _ _ _ _ (by decide) (by decide) (by decide)]
        simp [kpn_false_of_expired now pk _ e hpk hgt, hjv]
      · exact quad_pk_evict_1 now (dataOr st, pk) "rgb_enabled" "rgb_brightness" "rgb_speed"
          "rgb_effect" (jget payload "enable" (.bool false)) (jget payload "brightness" (.num 0))
          (jget payload "speed" (.num 0)) (jget payload "effect" (.num 0)) e hpk hgt
    · rw [handle_slot7_obj]
      constructor
      · simp only [snapLook, dataOr_some]
        rw [alook_dictUpdate_conn _ now _ (by decide) (by decide) (by decide),
          quad_lookup_2 now (dataOr st, pk) _ _ _ _ _ _ _ _ (by decide) (by decide) (by decide)]
        simp [kpn_false_of_expired now pk _ e hpk hgt, hjv]
      · exact quad_pk_evict_2 now (dataOr st, pk) "rgb_enabled" "rgb_brightness" "rgb_speed"
          "rgb_effect" (jget payload "enable" (.bool false)) (jget payload "brightness" (.num 0))
          (jget payload "speed" (.num 0)) (jget payload "effect" (.num 0)) e (by decide) hpk hgt
    · rw [handle_slot7_obj]
      constructor
      · simp only [snapLook, dataOr_some]
        rw [alook_dictUpdate_conn _ now _ (by decide) (by decide) (by decide),
          quad_lookup_3 now (dataOr st, pk) _ _ _ _ _ _ _ _ (by decide) (by decide) (by decide)]
        simp [kpn_false_of_expired now pk _ e hpk hgt, hjv]
      · exact quad_pk_evict_3 now (dataOr st, pk) "rgb_enabled" "rgb_brightness" "rgb_speed"
          "rgb_effect" (jget payload "enable" (.bool false)) (jget payload "brightness" (.num 0))
          (jget payload "speed" (.num 0)) (jget payload "effect" (.num 0)) e (by decide)
          (by decide) hpk hgt
    · rw [handle_slot7_obj]
      constructor
      · simp only [snapLook, dataOr_some]
        rw [alook_dictUpdate_conn _ now _ (by decide) (by decide) (by decide),
          quad_lookup_4 now (dataOr st, pk) _ _ _ _ _ _ _ _ (by decide) (by decide) (by decide)]
        simp [kpn_false_of_expired now pk _ e hpk hgt, hjv]
      · exact quad_pk_evict_4 now (dataOr st, pk) "rgb_enabled" "rgb_brightness" "rgb_speed"
          "rgb_effect" (jget payload "enable" (.bool false)) (jget payload "brightness" (.num 0))
          (jget payload "speed" (.num 0)) (jget payload "effect" (.num 0)) e (by decide)
          (by decide) (by decide) hpk hgt
    · rw [handle_slot9_obj]
      constructor
      · simp only [snapLook, dataOr_some]
        rw [alook_dictUpdate_conn _ now _ (by decide) (by decide) (by decide),
          quad_lookup_1 now (dataOr st, pk) _ _ _ _ _ _ _ _ (by decide) (by decide) (by decide)]
        simp [kpn_false_of_expired now pk _ e hpk hgt, hjv]
      · exact quad_pk_evict_1 now (dataOr st, pk) "audio_enabled" "volume_key" "volume_startup"
          "volume_alarm" (jget payload "enable" (.bool false))
          (jget payload "volume_key" (.num 0)) (jget payload "volume_startup" (.num 0))
          (jget payload "volume_alarm" (.num 0)) e hpk hgt
    · rw [handle_slot9_obj]
      constructor
      · simp only [snapLook, dataOr_some]
        rw [alook_dictUpdate_conn _ now _ (by decide) (by decide) (by decide),
          quad_lookup_2 now (dataOr st, pk) _ _ _ _ _ _ _ _ (by decide) (by decide) (by decide)]
        simp [kpn_false_of_expired now pk _ e hpk hgt, hjv]
      · exact quad_pk_evict_2 now (dataOr st, pk) "audio_enabled" "volume_key" "volume_startup"
          "volume_alarm" (jget payload "enable" (.bool false))
          (jget payload "volume_key" (.num 0)) (jget payload "volume_startup" (.num 0))
          (jget payload "volume_alarm" (.num 0)) e (by decide) hpk hgt
    · rw [handle_slot9_obj]
      constructor
      · simp only [snapLook, dataOr_some]
        rw [alook_dictUpdate_conn _ now _ (by decide) (by decide) (by decide),
          quad_lookup_3 now (dataOr st, pk) _ _ _ _ _ _ _ _ (by decide) (by decide) (by decide)]
        simp [kpn_false_of_expired now pk _ e hpk hgt, hjv]
      · exact quad_pk_evict_3 now (dataOr st, pk) "audio_enabled" "volume_key" "volume_startup"
          "volume_alarm" (jget payload "enable" (.bool false))
          (jget payload "volume_key" (.num 0)) (jget payload "volume_startup" (.num 0))
          (jget payload "volume_alarm" (.num 0)) e (by decide) (by decide) hpk hgt
    · rw [handle_slot9_obj]
      constructor
      · simp only [snapLook, dataOr_some]
        rw [alook_dictUpdate_conn _ now _ (by decide) (by decide) (by decide),
          quad_lookup_4 now (dataOr st, pk) _ _ _ _ _ _ _ _ (by decide) (by decide) (by decide)]
        simp [kpn_false_of_expired now pk _ e hpk hgt, hjv]
      · exact quad_pk_evict_4 now (dataOr st, pk) "audio_enabled" "volume_key" "volume_startup"
          "volume_alarm" (jget payload "enable" (.bool false))
          (jget payload "volume_key" (.num 0)) (jget payload "volume_startup" (.num 0))
          (jget payload "volume_alarm" (.num 0)) e (by decide) (by decide) (by decide) hpk hgt
    · rw [handle_slot12_obj]
      constructor
      · simp only [snapLook, dataOr_some]
        rw [alook_dictUpdate_conn _ now _ (by decide) (by decide) (by decide),
          guard_lookup now (dataOr st, pk) _ _ _ (by
            intro kv hkv
            simp only [List.mem_cons, List.not_mem_nil, or_false] at hkv
            rcases hkv with rfl|rfl|rfl|rfl|rfl|rfl|rfl|rfl <;> simp)]
        simp [kpn_false_of_expired now pk _ e hpk hgt, hjv]
      · exact guard_pk_evict now (dataOr st, pk) "lcd_brightness"
          (jget payload "lcd_brightness" (.num 0))
          [("language", jget payload "language" (.str "en")),
           ("display_mode", jget payload "display_mode" (.num 0)),
           ("style", jget payload "style" (.num 0)),
           ("style_auto_switch", jget payload "style_auto_switch" (.num 0)),
           ("time_album_auto_switch", jget payload "time_album_auto_switch" (.num 0)),
           ("matrix_rain_color", jget payload "matrix_rain_color" (.str "#00ff00")),
           ("date_mode_date_duration", jget payload "date_mode_date_duration" (.num 60)),
           ("date_mode_time_duration", jget payload "date_mode_time_duration" (.num 60))]
          e hpk hgt
    · rw [handle_slot6_obj]
      constructor
      · simp only [snapLook, dataOr_some]
        rw [alook_dictUpdate_conn _ now _ (by decide) (by decide) (by decide),
          guard_lookup now (dataOr st, pk) _ _ _ (by
            intro kv hkv
            simp only [List.mem_cons, List.not_mem_nil, or_false] at hkv
            rcases hkv with rfl|rfl <;> simp)]
        simp [kpn_false_of_expired now pk _ e hpk hgt, hjv]
      · exact guard_pk_evict now (dataOr st, pk) "auto_sleep_enabled"
          (jget payload "enable" (.bool false))
          [("auto_sleep_start", jget payload "start" (.str "00:00")),
           ("auto_sleep_end", jget payload "end" (.str "00:00"))] e hpk hgt

/-- Witness for C1 at Scenario C's numbers: `rgb_brightness` protected
until clock 8 with snapshot value 80; a merge reporting 20 at clock 5
leaves 80 in place, and a merge at clock 9 applies 20 and evicts the
entry. -/
theorem c1_protection_window_witness :
    snapLook (handle_marvel_tribe_response 5
      [("command", .num 2), ("7", .obj [("brightness", .num 20)])]
      (some [("rgb_brightness", .num 80)]) [("rgb_brightness", 8)]).1 "rgb_brightness"
      = some (.num 80) ∧
    snapLook (handle_marvel_tribe_response 9
      [("command", .num 2), ("7", .obj [("brightness", .num 20)])]
      (some [("rgb_brightness", .num 80)]) [("rgb_brightness", 8)]).1 "rgb_brightness"
      = some (.num 20) ∧
    alook (handle_marvel_tribe_response 9
      [("command", .num 2), ("7", .obj [("brightness", .num 20)])]
      (some [("rgb_brightness", .num 80)]) [("rgb_brightness", 8)]).2 "rgb_brightness"
      = none := by
  have h1 := c1_protection_window.1 "rgb_brightness" 5
    [("command", .num 2), ("7", .obj [("brightness", .num 20)])]
    (some [("rgb_brightness", .num 80)]) [("rgb_brightness", 8)] 8
    (by decide) (by decide) (by decide)
  have h2 := c1_protection_window.2 ("rgb_brightness", "7", "brightness") (by decide) 9
    (some [("rgb_brightness", .num 80)]) [("rgb_brightness", 8)] 8
    [("brightness", .num 20)] (.num 20) (by decide) (by decide) rfl
  exact ⟨h1.trans rfl, h2.1, h2.2⟩

/-- Claim C2: merging the frame
`{"command":2,"7":{"enable":true,"brightness":55,"speed":10,"effect":1}}`
sets `rgb_enabled=true, rgb_brightness=55, rgb_speed=10, rgb_effect=1`
in the snapshot, except that each of the four fields that is protected
at merge time keeps its prior snapshot value while the others are still
updated. -/
theorem c2_scenario_b (now : Int) (st : Option Snapshot) (pk : ProtKeys) :
    snapLook (handle_marvel_tribe_response now
      [("command", .num 2), ("7", .obj [("enable", .bool true), ("brightness", .num 55),
        ("speed", .num 10), ("effect", .num 1)])] st pk).1 "rgb_enabled" =
      (if key_protected_now now pk "rgb_enabled" then snapLook st "rgb_enabled"
       else some (.bool true)) ∧
    snapLook (handle_marvel_tribe_response now
      [("command", .num 2), ("7", .obj [("enable", .bool true), ("brightness", .num 55),
        ("speed", .num 10), ("effect", .num 1)])] st pk).1 "rgb_brightness" =
      (if key_protected_now now pk "rgb_brightness" then snapLook st "rgb_brightness"
       else some (.num 55)) ∧
    snapLook (handle_marvel_tribe_response now
      [("command", .num 2), ("7", .obj [("enable", .bool true), ("brightness", .num 55),
        ("speed", .num 10), ("effect", .num 1)])] st pk).1 "rgb_speed" =
      (if key_protected_now now pk "rgb_speed" then snapLook st "rgb_speed"
       else some (.num 10)) ∧
    snapLook (handle_marvel_tribe_response now
      [("command", .num 2), ("7", .obj [("enable", .bool true), ("brightness", .num 55),
        ("speed", .num 10), ("effect", .num 1)])] st pk).1 "rgb_effect" =
      (if key_protected_now now pk "rgb_effect" then snapLook st "rgb_effect"
       else some (.num 1)) := by
  rw [handle_slot7_obj]
  refine ⟨?_, ?_, ?_, ?_⟩
  · simp only [snapLook, dataOr_some]
    rw [alook_dictUpdate_conn _ now _ (by decide) (by decide) (by decide),
      quad_lookup_1 now (dataOr st, pk) _ _ _ _ _ _ _ _ (by decide) (by decide) (by decide)]
    rfl
  · simp only [snapLook, dataOr_some]
    rw [alook_dictUpdate_conn _ now _ (by decide) (by decide) (by decide),
      quad_lookup_2 now (dataOr st, pk) _ _ _ _ _ _ _ _ (by decide) (by decide) (by decide)]
    rfl
  · simp only [snapLook, dataOr_some]
    rw [alook_dictUpdate_conn _ now _ (by decide) (by decide) (by decide),
      quad_lookup_3 now (dataOr st, pk) _ _ _ _ _ _ _ _ (by decide) (by decide) (by decide)]
    rfl
  · simp only [snapLook, dataOr_some]
    rw [alook_dictUpdate_conn _ now _ (by decide) (by decide) (by decide),
      quad_lookup_4 now (dataOr st, pk) _ _ _ _ _ _ _ _ (by decide) (by decide) (by decide)]
    rfl

/-- Claim C10: a partial group block clobbers the unmentioned,
non-protected fields of its own group with fixed defaults: a slot-"7"
block lacking `enable` sets `rgb_enabled=false` (and lacking
`brightness`/`speed`/`effect` sets those to 0) when unprotected, and a
slot-"8" block lacking `ssid` sets `wifi_ssid=""`. -/
theorem c10_omitted_fields_clobbered :
    (∀ (now : Int) (st : Option Snapshot) (pk : ProtKeys) (B : ObjFields),
       alook B "enable" = none → key_protected_now now pk "rgb_enabled" = false →
       snapLook (handle_marvel_tribe_response now
         [("command", .num 2), ("7", .obj B)] st pk).1 "rgb_enabled"
         = some (.bool false)) ∧
    (∀ (now : Int) (st : Option Snapshot) (pk : ProtKeys) (B : ObjFields),
       alook B "brightness" = none → key_protected_now now pk "rgb_brightness" = false →
       snapLook (handle_marvel_tribe_response now
         [("command", .num 2), ("7", .obj B)] st pk).1 "rgb_brightness"
         = some (.num 0)) ∧
    (∀ (now : Int) (st : Option Snapshot) (pk : ProtKeys) (B : ObjFields),
       alook B "speed" = none → key_protected_now now pk "rgb_speed" = false →
       snapLook (handle_marvel_tribe_response now
         [("command", .num 2), ("7", .obj B)] st pk).1 "rgb_speed"
         = some (.num 0)) ∧
    (∀ (now : Int) (st : Option Snapshot) (pk : ProtKeys) (B : ObjFields),
       alook B "effect" = none → key_protected_now now pk "rgb_effect" = false →
       snapLook (handle_marvel_tribe_response now
         [("command", .num 2), ("7", .obj B)] st pk).1 "rgb_effect"
         = some (.num 0)) ∧
    (∀ (now : Int) (st : Option Snapshot) (pk : ProtKeys) (W : ObjFields),
       alook W "ssid" = none →
       snapLook (handle_marvel_tribe_response now
         [("command", .num 2), ("8", .obj W)] st pk).1 "wifi_ssid"
         = some (.str "")) := by
  refine ⟨?_, ?_, ?_, ?_, ?_⟩
  · intro now st pk B hB hnp
    rw [handle_slot7_obj]
    simp only [snapLook, dataOr_some]
    rw [alook_dictUpdate_conn _ now _ (by decide) (by decide) (by decide),
      quad_lookup_1 now (dataOr st, pk) _ _ _ _ _ _ _ _ (by decide) (by decide) (by decide)]
    simp [hnp, jget, hB]
  · intro now st pk B hB hnp
    rw [handle_slot7_obj]
    simp only [snapLook, dataOr_some]
    rw [alook_dictUpdate_conn _ now _ (by decide) (by decide) (by decide),
      quad_lookup_2 now (dataOr st, pk) _ _ _ _ _ _ _ _ (by decide) (by decide) (by decide)]
    simp [hnp, jget, hB]
  · intro now st pk B hB hnp
    rw [handle_slot7_obj]
    simp only [snapLook, dataOr_some]
    rw [alook_dictUpdate_conn _ now _ (by decide) (by decide) (by decide),
      quad_lookup_3 now (dataOr st, pk) _ _ _ _ _ _ _ _ (by decide) (by decide) (by decide)]
    simp [hnp, jget, hB]
  · intro now st pk B hB hnp
    rw [handle_slot7_obj]
    simp only [snapLook, dataOr_some]
    rw [alook_dictUpdate_conn _ now _ (by decide) (by decide) (by decide),
      quad_lookup_4 now (dataOr st, pk) _ _ _ _ _ _ _ _ (by decide) (by decide) (by decide)]
    simp [hnp, jget, hB]
  · intro now st pk W hW
    rw [handle_slot8_obj]
    simp only [snapLook, dataOr_some]
    rw [alook_dictUpdate_conn _ now _ (by decide) (by decide) (by decide)]
    simp [dictUpdate, alook, jget, hW]

/-- Witness for C10: with an empty protection table, the frame
`{"command":2,"7":{"brightness":7}}` resets `rgb_enabled` to `false`
even though the snapshot held `true`, and `{"command":2,"8":{}}` resets
`wifi_ssid` to the empty string. -/
theorem c10_omitted_fields_clobbered_witness :
    snapLook (handle_marvel_tribe_response 0
      [("command", .num 2), ("7", .obj [("brightness", .num 7)])]
      (some [("rgb_enabled", .bool true), ("wifi_ssid", .str "home-net")]) []).1 "rgb_enabled"
      = some (.bool false) ∧
    snapLook (handle_marvel_tribe_response 0
      [("command", .num 2), ("8", .obj [])]
      (some [("rgb_enabled", .bool true), ("wifi_ssid", .str "home-net")]) []).1 "wifi_ssid"
      = some (.str "") := by
  constructor
  · exact c10_omitted_fields_clobbered.1 0
      (some [("rgb_enabled", .bool true), ("wifi_ssid", .str "home-net")]) []
      [("brightness", .num 7)] rfl (by decide)
  · exact c10_omitted_fields_clobbered.2.2.2.2 0
      (some [("rgb_enabled", .bool true), ("wifi_ssid", .str "home-net")]) [] [] rfl

/-- Claim C9: every inbound frame whose `command` value is 8 merges the
device-characteristic fields `screen_width`, `screen_height` and
`style_count` from the frame's own flat `data` block (defaults when the
block is absent) into the snapshot, and the connectivity bookkeeping
fields (`connected=true`, `status="connected"`, last-update timestamp)
are set afterwards. -/
theorem c9_characteristic :
    (∀ (now : Int) (msg : Frame) (st : Option Snapshot) (pk : ProtKeys) (cb : ObjFields),
       alook msg "command" = some (.num 8) → alook msg "data" = some (.obj cb) →
       snapLook (handle_marvel_tribe_response now msg st pk).1 "screen_width"
         = some (jget cb "screen_width" (.num 0)) ∧
       snapLook (handle_marvel_tribe_response now msg st pk).1 "screen_height"
         = some (jget cb "screen_height" (.num 0)) ∧
       snapLook (handle_marvel_tribe_response now msg st pk).1 "style_count"
         = some (jget cb "style_count" (.num 0)) ∧
       snapLook (handle_marvel_tribe_response now msg st pk).1 "connected"
         = some (.bool true) ∧
       snapLook (handle_marvel_tribe_response now msg st pk).1 "status"
         = some (.str "connected") ∧
       snapLook (handle_marvel_tribe_response now msg st pk).1 "last_update"
         = some (.str (isoNow now))) ∧
    (∀ (now : Int) (msg : Frame) (st : Option Snapshot) (pk : ProtKeys),
       alook msg "command" = some (.num 8) → alook msg "data" = none →
       snapLook (handle_marvel_tribe_response now msg st pk).1 "screen_width"
         = some (.num 0) ∧
       snapLook (handle_marvel_tribe_response now msg st pk).1 "screen_height"
         = some (.num 0) ∧
       snapLook (handle_marvel_tribe_response now msg st pk).1 "style_count"
         = some (.num 0) ∧
       snapLook (handle_marvel_tribe_response now msg st pk).1 "connected"
         = some (.bool true)) := by
  constructor
  · intro now msg st pk cb hc hd
    simp only [handle_marvel_tribe_response, runBody, hc, procCharacteristic, hd, mbind]
    refine ⟨?_, ?_, ?_, ?_, ?_, ?_⟩ <;>
      simp only [snapLook, dataOr_some] <;>
      simp [connUpdates, dictUpdate, alook]
  · intro now msg st pk hc hd
    simp only [handle_marvel_tribe_response, runBody, hc, procCharacteristic, hd, mbind]
    refine ⟨?_, ?_, ?_, ?_⟩ <;>
      simp only [snapLook, dataOr_some] <;>
      simp [connUpdates, dictUpdate, alook]

/-- Witness for C9: the frame
`{"command":8,"data":{"screen_width":240,"screen_height":240}}` merges
`screen_width=240`, `screen_height=240`, `style_count=0` and sets the
connectivity fields. -/
theorem c9_characteristic_witness :
    snapLook (handle_marvel_tribe_response 3
      [("command", .num 8), ("data", .obj [("screen_width", .num 240),
        ("screen_height", .num 240)])] none []).1 "screen_width" = some (.num 240) ∧
    snapLook (handle_marvel_tribe_response 3
      [("command", .num 8), ("data", .obj [("screen_width", .num 240),
        ("screen_height", .num 240)])] none []).1 "style_count" = some (.num 0) ∧
    snapLook (handle_marvel_tribe_response 3
      [("command", .num 8), ("data", .obj [("screen_width", .num 240),
        ("screen_height", .num 240)])] none []).1 "status" = some (.str "connected") := by
  have h := c9_characteristic.1 3
    [("command", .num 8), ("data", .obj [("screen_width", .num 240),
      ("screen_height", .num 240)])] none []
    [("screen_width", .num 240), ("screen_height", .num 240)] rfl rfl
  exact ⟨h.1.trans rfl, h.2.2.1.trans rfl, h.2.2.2.2.1⟩

theorem alook_mem_values {α : Type} (l : List (String × α)) (k : String) (v : α)
    (h : alook l k = some v) : v ∈ l.map (fun p => p.2) := by
  induction l with
  | nil => exact absurd h (by simp [alook])
  | cons p t ih =>
    obtain ⟨k1, v1⟩ := p
    rw [alook_cons] at h
    by_cases hk : k = k1
    · rw [if_pos hk] at h
      injection h with h
      subst h
      exact List.mem_cons_self _ _
    · rw [if_neg hk] at h
      exact List.mem_cons_of_mem _ (ih h)

theorem send_frame_eq (ct pn : String) (cid pid : Int) (d : Option JsonVal)
    (hc : commandIdOf ct = some cid) (hp : propertyIdOf pn = some pid) :
    send_property_command_frame ct pn d
      = some [("command", .num cid), (toString pid, d.getD (.str "0"))] := by
  simp only [send_property_command_frame, hc, hp]
  cases d with
  | none => simp
  | some dv => split <;> rfl

theorem ts_pid_ne_command (pn : String) (pid : Int) (hp : propertyIdOf pn = some pid) :
    toString pid ≠ "command" := by
  have hmem : pid ∈ property_id.map (fun p => p.2) := alook_mem_values _ _ _ hp
  have hvals : property_id.map (fun p => p.2)
      = [0, 1, 2, 3, 4, 5, 6, 7, 8, 9, 10, 11, 12, 13, 14, 15] := rfl
  rw [hvals] at hmem
  fin_cases hmem <;> decide

/-- Claim C8: a decoded frame with a `command` key is forwarded first
and unconditionally to the reserved `marvel_tribe_data` handler when
one is registered (then logged by the protocol handler), regardless of
its property blocks; a frame without `command` is dispatched to the
handler registered for its `type` value, and dropped with a diagnostic
(not an error) when no handler matches. -/
theorem c8_dispatch :
    (∀ (handlers : List String) (fr : Frame) (cmd : JsonVal),
       alook fr "command" = some cmd → "marvel_tribe_data" ∈ handlers →
       handle_message handlers fr
         = [Event.toHandler "marvel_tribe_data" fr, Event.protocolLog cmd]) ∧
    (∀ (handlers : List String) (fr : Frame) (t : String),
       alook fr "command" = none → alook fr "type" = some (.str t) → t ∈ handlers →
       handle_message handlers fr = [Event.toHandler t fr]) ∧
    (∀ (handlers : List String) (fr : Frame) (t : String),
       alook fr "command" = none → alook fr "type" = some (.str t) → t ∉ handlers →
       handle_message handlers fr = [Event.unhandledDiag (.str t)]) := by
  refine ⟨?_, ?_, ?_⟩
  · intro handlers fr cmd hc hreg
    simp [handle_message, hc, hreg]
  · intro handlers fr t hc ht hmem
    simp [handle_message, hc, jget, ht, hmem]
  · intro handlers fr t hc ht hmem
    simp [handle_message, hc, jget, ht, hmem]

/-- Witness for C8: a command frame is forwarded to the registered
reserved handler first; a legacy frame with an unregistered type is
dropped with a diagnostic. -/
theorem c8_dispatch_witness :
    handle_message ["marvel_tribe_data", "status"] [("command", .num 2)]
      = [Event.toHandler "marvel_tribe_data" [("command", .num 2)],
         Event.protocolLog (.num 2)] ∧
    handle_message ["marvel_tribe_data", "status"] [("type", .str "status")]
      = [Event.toHandler "status" [("type", .str "status")]] ∧
    handle_message ["marvel_tribe_data", "status"] [("type", .str "weather")]
      = [Event.unhandledDiag (.str "weather")] := by
  refine ⟨?_, ?_, ?_⟩
  · exact c8_dispatch.1 ["marvel_tribe_data", "status"] [("command", .num 2)]
      (.num 2) rfl (by decide)
  · exact c8_dispatch.2.1 ["marvel_tribe_data", "status"] [("type", .str "status")]
      "status" rfl rfl (by decide)
  · exact c8_dispatch.2.2 ["marvel_tribe_data", "status"] [("type", .str "weather")]
      "weather" rfl rfl (by decide)

/-- Claim C3: for every command name and property name in the codec
tables and any data, encoding with `send_property_command` and decoding
the resulting frame with the inbound message handler recovers the
command's numeric id as the frame's `command` value and the property's
numeric id as a present slot key, the whole frame being forwarded to
the reserved protocol-data handler. -/
theorem c3_roundtrip (ct pn : String) (cid pid : Int) (d : Option JsonVal)
    (handlers : List String) (hc : commandIdOf ct = some cid)
    (hp : propertyIdOf pn = some pid) (hreg : "marvel_tribe_data" ∈ handlers) :
    ∃ fr, send_property_command_frame ct pn d = some fr ∧
      handle_message handlers fr
        = [Event.toHandler "marvel_tribe_data" fr, Event.protocolLog (.num cid)] ∧
      alook fr "command" = some (.num cid) ∧
      (alook fr (toString pid)).isSome = true := by
  have hts : toString pid ≠ "command" := ts_pid_ne_command pn pid hp
  have henc := send_frame_eq ct pn cid pid d hc hp
  have hcl : alook [("command", JsonVal.num cid), (toString pid, d.getD (.str "0"))]
      "command" = some (.num cid) := by
    rw [alook_cons, if_pos rfl]
  have hpl : alook [("command", JsonVal.num cid), (toString pid, d.getD (.str "0"))]
      (toString pid) = some (d.getD (.str "0")) := by
    rw [alook_cons, if_neg hts, alook_cons, if_pos rfl]
  refine ⟨_, henc, ?_, hcl, ?_⟩
  · simp [handle_message, hcl, hreg]
  · simp [hpl]

/-- Witness for C3: the get-time request round-trips: its frame carries
`command = 2` and slot key `"3"`. -/
theorem c3_roundtrip_witness :
    ∃ fr, send_property_command_frame "get_user_property" "time" none = some fr ∧
      handle_message ["marvel_tribe_data"] fr
        = [Event.toHandler "marvel_tribe_data" fr, Event.protocolLog (.num 2)] ∧
      alook fr "command" = some (.num 2) ∧
      (alook fr (toString (3 : Int))).isSome = true :=
  c3_roundtrip "get_user_property" "time" 2 3 none ["marvel_tribe_data"] rfl rfl (by decide)

/-- Claim C4, counterexample to the statement as written: it is not the
case that the encoded slot value is the sentinel `"0"` precisely when
data is absent and the command is a get — encoding `set_user_property`
with absent data also produces the sentinel. -/
theorem c4_counterexample :
    ¬ (∀ (ct pn : String) (cid pid : Int) (d : Option JsonVal) (fr : Frame),
        commandIdOf ct = some cid → propertyIdOf pn = some pid →
        send_property_command_frame ct pn d = some fr →
        (alook fr (toString pid) = some (.str "0") ↔
          (d = none ∧ ct = "get_user_property"))) := by
  intro h
  have henc : send_property_command_frame "set_user_property" "rgb_light" none
      = some [("command", .num 1), ("7", .str "0")] := rfl
  have h2 := h "set_user_property" "rgb_light" 1 7 none
    [("command", .num 1), ("7", .str "0")] rfl rfl henc
  have h4 : ("set_user_property" : String) = "get_user_property" := (h2.mp (by rfl)).2
  exact absurd h4 (by decide)

/-- Claim C4 as amended: encoding a property command produces exactly
the envelope `{"command": cid, "<pid>": v}` where `v` is the supplied
data when present and the string sentinel `"0"` when data is absent,
regardless of the command kind; in particular the outbound get form is
`{"command": <int>, "<pid>": "0"}`. -/
theorem c4_envelope :
    (∀ (ct pn : String) (cid pid : Int) (d : Option JsonVal),
       commandIdOf ct = some cid → propertyIdOf pn = some pid →
       send_property_command_frame ct pn d
         = some [("command", .num cid), (toString pid, d.getD (.str "0"))]) ∧
    (∀ (pn : String) (pid : Int), propertyIdOf pn = some pid →
       send_property_command_frame "get_user_property" pn none
         = some [("command", .num 2), (toString pid, .str "0")]) := by
  exact ⟨fun ct pn cid pid d hc hp => send_frame_eq ct pn cid pid d hc hp,
    fun pn pid hp => send_frame_eq "get_user_property" pn 2 pid none rfl hp⟩

/-- Witness for C4 (amended): a set command with a full payload carries
the payload itself, and the get-time frame carries the sentinel. -/
theorem c4_envelope_witness :
    send_property_command_frame "set_user_property" "rgb_light"
      (some (.obj [("enable", .bool true)]))
      = some [("command", .num 1), ("7", .obj [("enable", .bool true)])] ∧
    send_property_command_frame "get_user_property" "time" none
      = some [("command", .num 2), ("3", .str "0")] := by
  constructor
  · exact (c4_envelope.1 "set_user_property" "rgb_light" 1 7
      (some (.obj [("enable", .bool true)])) rfl rfl).trans (by rfl)
  · exact (c4_envelope.2 "time" 3 rfl).trans (by rfl)

/-- Claim C5: a refresh invoked while connected and less than the fixed
2-time-unit debounce window after the last request dispatch issues zero
wire requests (and no connect attempt), returns the current snapshot
unchanged, and leaves the coordinator state untouched; a second refresh
within the same window behaves identically. -/
theorem c5_debounce (now1 now2 : Int) (cOk1 cOk2 : Bool) (st : CoordState)
    (hconn : st.connected = true)
    (h1 : now1 - st.lastRequestTime < 2) (h2 : now2 - st.lastRequestTime < 2) :
    async_update_data cOk1 now1 st = (st, Except.ok (dataOr st.data), []) ∧
    async_update_data cOk2 now2 (async_update_data cOk1 now1 st).1
      = (st, Except.ok (dataOr st.data), []) := by
  have ha : async_update_data cOk1 now1 st = (st, Except.ok (dataOr st.data), []) := by
    simp [async_update_data, async_update_step2, hconn, requestCacheTimeout, h1]
  refine ⟨ha, ?_⟩
  rw [ha]
  simp [async_update_data, async_update_step2, hconn, requestCacheTimeout, h2]

/-- Witness for C5: with the last dispatch at clock 10 and both calls
at clock 11, the debounced refresh returns the snapshot untouched with
no actions, twice. -/
theorem c5_debounce_witness :
    async_update_data true 11 ⟨true, some [("status", .str "connected")], 10⟩
      = (⟨true, some [("status", .str "connected")], 10⟩,
         Except.ok [("status", .str "connected")], []) ∧
    async_update_data true 11
      (async_update_data true 11 ⟨true, some [("status", .str "connected")], 10⟩).1
      = (⟨true, some [("status", .str "connected")], 10⟩,
         Except.ok [("status", .str "connected")], []) := by
  have h := c5_debounce 11 11 true true ⟨true, some [("status", .str "connected")], 10⟩
    rfl (by decide) (by decide)
  exact ⟨h.1.trans rfl, h.2.trans rfl⟩

/-- Claim C6: a refresh while disconnected attempts `connect()`; when
the attempt fails the refresh fails with the communication-failure
error, leaving the snapshot exactly as before; and no refresh call ever
modifies the stored snapshot, whatever the environment does. -/
theorem c6_connect_failure :
    (∀ (now : Int) (st : CoordState), st.connected = false →
       async_update_data false now st
         = ({ st with connected := false }, .error "Failed to connect to Marvel Tribe",
            [Action.connectAttempt])) ∧
    (∀ (cOk : Bool) (now : Int) (st : CoordState),
       (async_update_data cOk now st).1.data = st.data) := by
  constructor
  · intro now st hdis
    simp [async_update_data, hdis]
  · intro cOk now st
    unfold async_update_data async_update_step2
    split_ifs <;> rfl

/-- Witness for C6: the first-ever refresh (empty snapshot, clock 5)
with a failing connect returns the communication failure and keeps the
snapshot absent. -/
theorem c6_connect_failure_witness :
    async_update_data false 5 ⟨false, none, 0⟩
      = (⟨false, none, 0⟩, .error "Failed to connect to Marvel Tribe",
         [Action.connectAttempt]) ∧
    (async_update_data false 5 ⟨false, none, 0⟩).1.data = none := by
  constructor
  · exact (c6_connect_failure.1 5 ⟨false, none, 0⟩ rfl).trans rfl
  · exact c6_connect_failure.2 false 5 ⟨false, none, 0⟩

/-! ### Alarm key lemmas (claim C7) -/

theorem alarmKey_ne_bool :
    ((List.range 6).all (fun i => (List.range 6).all (fun j =>
      decide (i = j) || alarmSufs.all (fun s1 => alarmSufs.all (fun s2 =>
        !(alarmKey i s1 == alarmKey j s2)))))) = true := by decide

theorem alarmKey_ne (i j : Nat) (hi : i < 6) (hj : j < 6) (hij : i ≠ j)
    (s1 s2 : String) (h1 : s1 ∈ alarmSufs) (h2 : s2 ∈ alarmSufs) :
    alarmKey i s1 ≠ alarmKey j s2 := by
  have hb := alarmKey_ne_bool
  rw [List.all_eq_true] at hb
  have hbi := hb i (List.mem_range.mpr hi)
  rw [List.all_eq_true] at hbi
  have hbij := hbi j (List.mem_range.mpr hj)
  rw [Bool.or_eq_true] at hbij
  rcases hbij with hd | hall
  · exact absurd (of_decide_eq_true hd) hij
  · rw [List.all_eq_true] at hall
    have h1' := hall s1 h1
    rw [List.all_eq_true] at h1'
    have h2' := h1' s2 h2
    intro heq
    simp [heq] at h2'

theorem alarmKey_fixed_ne_bool :
    ((List.range 6).all (fun j => alarmSufs.all (fun s =>
      !(alarmKey j s == "alarm_system_enabled") && !(alarmKey j s == "alarms") &&
      !(alarmKey j s == "connected") && !(alarmKey j s == "status") &&
      !(alarmKey j s == "last_update")))) = true := by decide

theorem alarmKey_fixed_ne (j : Nat) (s : String) (hj : j < 6) (hs : s ∈ alarmSufs) :
    alarmKey j s ≠ "alarm_system_enabled" ∧ alarmKey j s ≠ "alarms" ∧
    alarmKey j s ≠ "connected" ∧ alarmKey j s ≠ "status" ∧
    alarmKey j s ≠ "last_update" := by
  have hb := alarmKey_fixed_ne_bool
  rw [List.all_eq_true] at hb
  have hbj := hb j (List.mem_range.mpr hj)
  rw [List.all_eq_true] at hbj
  have hs' := hbj s hs
  simp only [Bool.and_eq_true, bne_iff_ne, Bool.not_eq_true'] at hs'
  refine ⟨?_, ?_, ?_, ?_, ?_⟩ <;>
    (intro heq; simp [heq] at hs')

theorem alarmKey_suffix_ne (i : Nat) (s1 s2 : String) (h : s1 ≠ s2) :
    alarmKey i s1 ≠ alarmKey i s2 := by
  intro heq
  apply h
  unfold alarmKey at heq
  have hd := congrArg String.data heq
  rw [String.data_append, String.data_append, String.data_append,
    String.data_append] at hd
  have h1 := List.append_cancel_left hd
  have h2 := List.append_cancel_left h1
  exact String.ext_iff.mpr h2

theorem alook_alarmRow (cur : Snapshot) (i : Nat) (a : ObjFields) :
    alook (dictUpdate cur (alarmRow i a)) (alarmKey i "_enabled")
      = some (jget a "enable" (.bool false)) ∧
    alook (dictUpdate cur (alarmRow i a)) (alarmKey i "_time")
      = some (jget a "moment" (.str "00:00")) ∧
    alook (dictUpdate cur (alarmRow i a)) (alarmKey i "_repeat")
      = some (jget a "repeat" (.bool false)) ∧
    alook (dictUpdate cur (alarmRow i a)) (alarmKey i "_rgb_flash")
      = some (jget a "rgb_flash" (.bool false)) ∧
    alook (dictUpdate cur (alarmRow i a)) (alarmKey i "_days")
      = some (.arr ((alarmDays.filter
          (fun d => pyTruthy (jget a d (.bool false)))).map JsonVal.str)) := by
  unfold alarmRow dictUpdate
  simp only [List.foldl]
  refine ⟨?_, ?_, ?_, ?_, ?_⟩
  · rw [alook_cons, if_neg (alarmKey_suffix_ne i "_enabled" "_days" (by decide)),
      alook_cons, if_neg (alarmKey_suffix_ne i "_enabled" "_rgb_flash" (by decide)),
      alook_cons, if_neg (alarmKey_suffix_ne i "_enabled" "_repeat" (by decide)),
      alook_cons, if_neg (alarmKey_suffix_ne i "_enabled" "_time" (by decide)),
      alook_cons, if_pos rfl]
  · rw [alook_cons, if_neg (alarmKey_suffix_ne i "_time" "_days" (by decide)),
      alook_cons, if_neg (alarmKey_suffix_ne i "_time" "_rgb_flash" (by decide)),
      alook_cons, if_neg (alarmKey_suffix_ne i "_time" "_repeat" (by decide)),
      alook_cons, if_pos rfl]
  · rw [alook_cons, if_neg (alarmKey_suffix_ne i "_repeat" "_days" (by decide)),
      alook_cons, if_neg (alarmKey_suffix_ne i "_repeat" "_rgb_flash" (by decide)),
      alook_cons, if_pos rfl]
  · rw [alook_cons, if_neg (alarmKey_suffix_ne i "_rgb_flash" "_days" (by decide)),
      alook_cons, if_pos rfl]
  · rw [alook_cons, if_pos rfl]

theorem alarmLoop_lookup (elems : List JsonVal) :
    ∀ (i0 : Nat) (cur : Snapshot), i0 + elems.length ≤ 6 →
    (∀ v ∈ elems, ∃ a, v = JsonVal.obj a) →
    ∃ c, alarmLoop i0 elems cur = Sum.inl c ∧
      (∀ (i : Nat) (a : ObjFields), elems[i]? = some (JsonVal.obj a) →
        alook c (alarmKey (i0 + i) "_enabled") = some (jget a "enable" (.bool false)) ∧
        alook c (alarmKey (i0 + i) "_time") = some (jget a "moment" (.str "00:00")) ∧
        alook c (alarmKey (i0 + i) "_repeat") = some (jget a "repeat" (.bool false)) ∧
        alook c (alarmKey (i0 + i) "_rgb_flash") = some (jget a "rgb_flash" (.bool false)) ∧
        alook c (alarmKey (i0 + i) "_days") = some (.arr ((alarmDays.filter
          (fun d => pyTruthy (jget a d (.bool false)))).map JsonVal.str))) ∧
      (∀ k : String,
        (∀ (j : Nat) (s : String), i0 ≤ j → j < i0 + elems.length → s ∈ alarmSufs →
          alarmKey j s ≠ k) →
        alook c k = alook cur k) := by
  induction elems with
  | nil =>
    intro i0 cur h6 hobj
    refine ⟨cur, rfl, ?_, fun k _ => rfl⟩
    intro i a hi
    simp at hi
  | cons v rest ih =>
    intro i0 cur h6 hobj
    simp only [List.length_cons] at h6
    obtain ⟨a0, rfl⟩ := hobj v (List.mem_cons_self _ _)
    have hobj' : ∀ w ∈ rest, ∃ a, w = JsonVal.obj a :=
      fun w hw => hobj w (List.mem_cons_of_mem _ hw)
    obtain ⟨c, hc, hlook, hpres⟩ :=
      ih (i0 + 1) (dictUpdate cur (alarmRow i0 a0)) (by omega) hobj'
    have hstep : alarmLoop i0 (JsonVal.obj a0 :: rest) cur
        = alarmLoop (i0 + 1) rest (dictUpdate cur (alarmRow i0 a0)) := rfl
    refine ⟨c, hstep.trans hc, ?_, ?_⟩
    · intro i a hi
      cases i with
      | zero =>
        simp only [List.getElem?_cons_zero] at hi
        injection hi with hi
        injection hi with hi
        subst hi
        have hrow := alook_alarmRow cur i0 a0
        have hkeep : ∀ s, s ∈ alarmSufs →
            alook c (alarmKey i0 s)
              = alook (dictUpdate cur (alarmRow i0 a0)) (alarmKey i0 s) := by
          intro s hs
          apply hpres
          intro j s' hj1 hj2 hs'
          exact alarmKey_ne j i0 (by omega) (by omega) (by omega) s' s hs' hs
        rw [Nat.add_zero]
        refine ⟨?_, ?_, ?_, ?_, ?_⟩
        · rw [hkeep _ (by decide)]
          exact hrow.1
        · rw [hkeep _ (by decide)]
          exact hrow.2.1
        · rw [hkeep _ (by decide)]
          exact hrow.2.2.1
        · rw [hkeep _ (by decide)]
          exact hrow.2.2.2.1
        · rw [hkeep _ (by decide)]
          exact hrow.2.2.2.2
      | succ n =>
        simp only [List.getElem?_cons_succ] at hi
        have h' := hlook n a hi
        have harith : i0 + 1 + n = i0 + (n + 1) := by omega
        rw [harith] at h'
        exact h'
    · intro k hk
      have hk' : ∀ (j : Nat) (s : String), i0 ≤ j →
          j < i0 + (JsonVal.obj a0 :: rest).length → s ∈ alarmSufs →
          alarmKey j s ≠ k := hk
      simp only [List.length_cons] at hk'
      have h1 : alook c k = alook (dictUpdate cur (alarmRow i0 a0)) k := by
        apply hpres
        intro j s hj1 hj2 hs
        exact hk' j s (by omega) (by omega) hs
      rw [h1]
      apply alook_dictUpdate_of_forall_ne
      intro kv hkv
      simp only [alarmRow, List.mem_cons, List.not_mem_nil, or_false] at hkv
      rcases hkv with rfl|rfl|rfl|rfl|rfl <;>
        exact hk' i0 _ (Nat.le_refl i0) (by omega) (by decide)

theorem handle_slot4_obj (now : Int) (fs : ObjFields) (st : Option Snapshot)
    (pk : ProtKeys) (alarms : List JsonVal) (c : Snapshot)
    (ha : jget fs "alarm" (.arr []) = .arr alarms)
    (hloop : alarmLoop 0 alarms (dictUpdate (dataOr st)
      [("alarm_system_enabled", jget fs "enable" (.bool false)),
       ("alarms", .arr alarms)]) = Sum.inl c) :
    handle_marvel_tribe_response now [("command", .num 2), ("4", .obj fs)] st pk
      = (some (dictUpdate c (connUpdates now)), pk) := by
  have hcm : alook [("command", JsonVal.num 2), ("4", JsonVal.obj fs)] "command"
      = some (.num 2) := rfl
  have h4 : alook [("command", JsonVal.num 2), ("4", JsonVal.obj fs)] "4"
      = some (.obj fs) := rfl
  have h2 : alook [("command", JsonVal.num 2), ("4", JsonVal.obj fs)] "2" = none := rfl
  have h3 : alook [("command", JsonVal.num 2), ("4", JsonVal.obj fs)] "3" = none := rfl
  have h7 : alook [("command", JsonVal.num 2), ("4", JsonVal.obj fs)] "7" = none := rfl
  have h8 : alook [("command", JsonVal.num 2), ("4", JsonVal.obj fs)] "8" = none := rfl
  have h9 : alook [("command", JsonVal.num 2), ("4", JsonVal.obj fs)] "9" = none := rfl
  have h12 : alook [("command", JsonVal.num 2), ("4", JsonVal.obj fs)] "12" = none := rfl
  have h6 : alook [("command", JsonVal.num 2), ("4", JsonVal.obj fs)] "6" = none := rfl
  simp only [handle_marvel_tribe_response, runBody, hcm, procSlot2_none _ _ h2,
    procSlot3_none _ _ h3, procSlot7_none now _ _ h7, procSlot8_none _ _ h8,
    procSlot9_none now _ _ h9, procSlot12_none now _ _ h12, procSlot4, h4, ha,
    pyIter, hloop, procSlot6_none now _ _ h6, mbind]

/-- Claim C7: merging an alarm group expands the (at most six slot)
alarm list into per-index flattened fields `alarm_<i>_enabled`,
`alarm_<i>_time`, `alarm_<i>_repeat`, `alarm_<i>_rgb_flash` and
`alarm_<i>_days`, the days list being the ordered subset of the seven
weekday names whose flag in that alarm entry is truthy — which, when
the present flags are booleans, is exactly the subset whose boolean
flag is true; in particular Scenario D's group merges to
`alarm_system_enabled=true, alarm_0_enabled=true, alarm_0_time="07:30",
alarm_0_days=["monday"]`. -/
theorem c7_alarm_expansion :
    (∀ (now : Int) (st : Option Snapshot) (pk : ProtKeys) (sysE : JsonVal)
       (alarms : List JsonVal), alarms.length ≤ 6 →
       (∀ v ∈ alarms, ∃ a, v = JsonVal.obj a) →
       snapLook (handle_marvel_tribe_response now
         [("command", .num 2), ("4", .obj [("enable", sysE), ("alarm", .arr alarms)])]
         st pk).1 "alarm_system_enabled" = some sysE ∧
       (∀ (i : Nat) (a : ObjFields), alarms[i]? = some (JsonVal.obj a) →
         snapLook (handle_marvel_tribe_response now
           [("command", .num 2), ("4", .obj [("enable", sysE), ("alarm", .arr alarms)])]
           st pk).1 (alarmKey i "_enabled") = some (jget a "enable" (.bool false)) ∧
         snapLook (handle_marvel_tribe_response now
           [("command", .num 2), ("4", .obj [("enable", sysE), ("alarm", .arr alarms)])]
           st pk).1 (alarmKey i "_time") = some (jget a "moment" (.str "00:00")) ∧
         snapLook (handle_marvel_tribe_response now
           [("command", .num 2), ("4", .obj [("enable", sysE), ("alarm", .arr alarms)])]
           st pk).1 (alarmKey i "_repeat") = some (jget a "repeat" (.bool false)) ∧
         snapLook (handle_marvel_tribe_response now
           [("command", .num 2), ("4", .obj [("enable", sysE), ("alarm", .arr alarms)])]
           st pk).1 (alarmKey i "_rgb_flash") = some (jget a "rgb_flash" (.bool false)) ∧
         snapLook (handle_marvel_tribe_response now
           [("command", .num 2), ("4", .obj [("enable", sysE), ("alarm", .arr alarms)])]
           st pk).1 (alarmKey i "_days") = some (.arr ((alarmDays.filter
             (fun d => pyTruthy (jget a d (.bool false)))).map JsonVal.str)))) ∧
    (∀ a : ObjFields,
       (∀ d ∈ alarmDays, ∀ w, alook a d = some w → ∃ b, w = JsonVal.bool b) →
       alarmDays.filter (fun d => pyTruthy (jget a d (.bool false)))
         = alarmDays.filter (fun d => dayFlagTrue a d)) ∧
    (∀ (now : Int) (st : Option Snapshot) (pk : ProtKeys),
       snapLook (handle_marvel_tribe_response now
         [("command", .num 2), ("4", .obj [("enable", .bool true),
           ("alarm", .arr [.obj [("enable", .bool true), ("moment", .str "07:30"),
             ("monday", .bool true)]])])] st pk).1 "alarm_system_enabled"
         = some (.bool true) ∧
       snapLook (handle_marvel_tribe_response now
         [("command", .num 2), ("4", .obj [("enable", .bool true),
           ("alarm", .arr [.obj [("enable", .bool true), ("moment", .str "07:30"),
             ("monday", .bool true)]])])] st pk).1 "alarm_0_enabled"
         = some (.bool true) ∧
       snapLook (handle_marvel_tribe_response now
         [("command", .num 2), ("4", .obj [("enable", .bool true),
           ("alarm", .arr [.obj [("enable", .bool true), ("moment", .str "07:30"),
             ("monday", .bool true)]])])] st pk).1 "alarm_0_time"
         = some (.str "07:30") ∧
       snapLook (handle_marvel_tribe_response now
         [("command", .num 2), ("4", .obj [("enable", .bool true),
           ("alarm", .arr [.obj [("enable", .bool true), ("moment", .str "07:30"),
             ("monday", .bool true)]])])] st pk).1 "alarm_0_days"
         = some (.arr [.str "monday"])) := by
  refine ⟨?_, ?_, ?_⟩
  · intro now st pk sysE alarms h6 hobj
    obtain ⟨c, hloop, hlook, hpres⟩ := alarmLoop_lookup alarms 0
      (dictUpdate (dataOr st)
        [("alarm_system_enabled",
          jget [("enable", sysE), ("alarm", JsonVal.arr alarms)] "enable" (.bool false)),
         ("alarms", .arr alarms)]) (by omega) hobj
    have hh := handle_slot4_obj now [("enable", sysE), ("alarm", .arr alarms)] st pk
      alarms c rfl hloop
    constructor
    · rw [hh]
      simp only [snapLook, dataOr_some]
      rw [alook_dictUpdate_conn _ now _ (by decide) (by decide) (by decide),
        hpres "alarm_system_enabled"
          (fun j s hj1 hj2 hs => (alarmKey_fixed_ne j s (by omega) hs).1)]
      simp [dictUpdate, List.foldl, alook, jget]
    · intro i a hi
      have hi6 : i < 6 := by
        rcases List.getElem?_eq_some.mp hi with ⟨hlen, _⟩
        omega
      have h5 := hlook i a hi
      rw [Nat.zero_add] at h5
      refine ⟨?_, ?_, ?_, ?_, ?_⟩
      · rw [hh]
        simp only [snapLook, dataOr_some]
        rw [alook_dictUpdate_conn _ now _ ((alarmKey_fixed_ne i _ hi6 (by decide)).2.2.1)
          ((alarmKey_fixed_ne i _ hi6 (by decide)).2.2.2.1)
          ((alarmKey_fixed_ne i _ hi6 (by decide)).2.2.2.2)]
        exact h5.1
      · rw [hh]
        simp only [snapLook, dataOr_some]
        rw [alook_dictUpdate_conn _ now _ ((alarmKey_fixed_ne i _ hi6 (by decide)).2.2.1)
          ((alarmKey_fixed_ne i _ hi6 (by decide)).2.2.2.1)
          ((alarmKey_fixed_ne i _ hi6 (by decide)).2.2.2.2)]
        exact h5.2.1
      · rw [hh]
        simp only [snapLook, dataOr_some]
        rw [alook_dictUpdate_conn _ now _ ((alarmKey_fixed_ne i _ hi6 (by decide)).2.2.1)
          ((alarmKey_fixed_ne i _ hi6 (by decide)).2.2.2.1)
          ((alarmKey_fixed_ne i _ hi6 (by decide)).2.2.2.2)]
        exact h5.2.2.1
      · rw [hh]
        simp only [snapLook, dataOr_some]
        rw [alook_dictUpdate_conn _ now _ ((alarmKey_fixed_ne i _ hi6 (by decide)).2.2.1)
          ((alarmKey_fixed_ne i _ hi6 (by decide)).2.2.2.1)
          ((alarmKey_fixed_ne i _ hi6 (by decide)).2.2.2.2)]
        exact h5.2.2.2.1
      · rw [hh]
        simp only [snapLook, dataOr_some]
        rw [alook_dictUpdate_conn _ now _ ((alarmKey_fixed_ne i _ hi6 (by decide)).2.2.1)
          ((alarmKey_fixed_ne i _ hi6 (by decide)).2.2.2.1)
          ((alarmKey_fixed_ne i _ hi6 (by decide)).2.2.2.2)]
        exact h5.2.2.2.2
  · intro a hbool
    apply List.filter_congr
    intro d hd
    cases had : alook a d with
    | none => simp [jget, had, pyTruthy, dayFlagTrue]
    | some w =>
      obtain ⟨b, rfl⟩ := hbool d hd w had
      simp [jget, had, pyTruthy, dayFlagTrue]
  · intro now st pk
    exact ⟨rfl, rfl, rfl, rfl⟩

/-- Witness for C7 at Scenario D's alarm group with an empty snapshot:
the flattened time and days fields come out as stated, and the
truthiness comprehension agrees with the boolean-flag reading. -/
theorem c7_alarm_expansion_witness :
    snapLook (handle_marvel_tribe_response 0
      [("command", .num 2), ("4", .obj [("enable", .bool true),
        ("alarm", .arr [.obj [("enable", .bool true), ("moment", .str "07:30"),
          ("monday", .bool true)]])])] none []).1 "alarm_0_days"
      = some (.arr [.str "monday"]) ∧
    snapLook (handle_marvel_tribe_response 0
      [("command", .num 2), ("4", .obj [("enable", .bool true),
        ("alarm", .arr [.obj [("enable", .bool true), ("moment", .str "07:30"),
          ("monday", .bool true)]])])] none []).1 (alarmKey 0 "_time")
      = some (.str "07:30") ∧
    alarmDays.filter (fun d => pyTruthy
        (jget [("monday", JsonVal.bool true)] d (.bool false)))
      = alarmDays.filter (fun d => dayFlagTrue [("monday", JsonVal.bool true)] d) := by
  refine ⟨?_, ?_, ?_⟩
  · exact (c7_alarm_expansion.2.2 0 none []).2.2.2
  · have h1 := c7_alarm_expansion.1 0 none [] (.bool true)
      [.obj [("enable", .bool true), ("moment", .str "07:30"), ("monday", .bool true)]]
      (by decide)
      (by
        intro v hv
        simp only [List.mem_cons, List.not_mem_nil, or_false] at hv
        exact ⟨_, hv⟩)
    exact ((h1.2 0 _ rfl).2.1).trans rfl
  · exact c7_alarm_expansion.2.1 [("monday", JsonVal.bool true)]
      (by
        intro d hd w hw
        fin_cases hd
        · simp only [alook] at hw
          exact ⟨true, by simp at hw; exact hw.symm⟩
        all_goals (simp [alook] at hw))

end MarvelTribe
